import Mathlib

/-!
Verification development for the asi-chain-explorer indexer core.

Shallow embedding of `src/indexer/src/resilience.py`, `src/indexer/src/database.py`,
`src/indexer/src/rust_cli_client.py`, `src/indexer/src/rust_indexer.py` and
`src/indexer/src/reorg_handler.py`.  Python numeric values are modelled with
`Nat`/`Int`/`Rat`; Python binary floats and `decimal.Decimal` values are modelled
as rationals together with the explicit rounding the Python runtime performs.
Effectful code (database sessions, subprocess calls) is modelled by explicit
state passing; the possible outcomes of external calls are inputs of the
embedded functions.
-/

set_option autoImplicit false
set_option maxRecDepth 16000

namespace ASIExplorer

/-! ### Retry mechanism — `resilience.py`, `RetryMechanism.calculate_delay` -/

/-- Mirror of `RetryConfig` (resilience.py lines 28-37).  Delay figures are
Python floats; they are modelled as rationals. -/
structure RetryConfig where
  max_attempts : Nat
  base_delay : ℚ
  max_delay : ℚ
  exponential_base : ℚ
  jitter : Bool
  backoff_multiplier : ℚ
deriving Repr, DecidableEq

/-- `RetryMechanism.calculate_delay` (resilience.py lines 79-91).
`u` stands for the value returned by `random.random()`, a number in `[0, 1)`.
The code computes `base_delay * exponential_base ** attempt * backoff_multiplier`,
multiplies by `0.5 + u * 0.5` when jitter is enabled, and caps the result with
`min(delay, max_delay)`. -/
def calculate_delay (cfg : RetryConfig) (attempt : Nat) (u : ℚ) : ℚ :=
  let delay := cfg.base_delay * cfg.exponential_base ^ attempt * cfg.backoff_multiplier
  let delay := if cfg.jitter then delay * (1/2 + u * (1/2)) else delay
  min delay cfg.max_delay

/-! ### Durable checkpoint — `database.py`, `Database.get_last_indexed_block` /
`Database.set_last_indexed_block` -/

/-- One row of the `indexer_state` table.  The `value` column is `Text` holding
the decimal rendering of an integer; the reading query casts it back with
`value::bigint`, so the row is modelled with the integer itself. -/
structure IndexerStateRow where
  key : String
  value : ℤ
deriving Repr, DecidableEq

/-- The `SELECT ... WHERE key = 'last_indexed_block'` of
`get_last_indexed_block` (database.py lines 89-98): `fetchrow` returns the
first matching row or nothing. -/
def fetchLastIndexedRow (tbl : List IndexerStateRow) : Option IndexerStateRow :=
  tbl.find? (fun r => r.key = "last_indexed_block")

/-- `Database.get_last_indexed_block` (database.py lines 89-98): returns the
stored value, and `0` when the row is absent (`row["block_number"] if row else 0`). -/
def get_last_indexed_block (tbl : List IndexerStateRow) : ℤ :=
  match fetchLastIndexedRow tbl with
  | some row => row.value
  | none => 0

/-- `Database.set_last_indexed_block` (database.py lines 100-109): an
`INSERT ... ON CONFLICT (key) DO UPDATE` upsert on the
`last_indexed_block` row. -/
def set_last_indexed_block (tbl : List IndexerStateRow) (n : ℤ) : List IndexerStateRow :=
  if tbl.any (fun r => r.key = "last_indexed_block") then
    tbl.map (fun r => if r.key = "last_indexed_block" then { r with value := n } else r)
  else
    tbl ++ [⟨"last_indexed_block", n⟩]

/-! ### Circuit breaker — `resilience.py`, `CircuitBreaker` (lines 141-226) -/

/-- Mirror of `CircuitBreakerConfig` (resilience.py lines 40-46).  The
`expected_exception` field is `Exception` in both deployed configurations
(`node_circuit_config`, `db_circuit_config`), so every raised error passes the
`isinstance` test in `_record_failure` and is counted. -/
structure CircuitBreakerConfig where
  failure_threshold : Nat
  recovery_timeout : ℚ
  success_threshold : Nat
deriving Repr, DecidableEq

/-- `CircuitState` (resilience.py lines 21-25). -/
inductive CircuitState where
  | closed
  | opened
  | halfOpen
deriving Repr, DecidableEq

/-- Mutable fields of `CircuitBreaker` (resilience.py lines 144-150).
Wall-clock instants (`time.time()` values) are modelled as rationals. -/
structure CircuitBreaker where
  state : CircuitState
  failure_count : Nat
  success_count : Nat
  last_failure_time : Option ℚ
  next_attempt_time : Option ℚ
deriving Repr, DecidableEq

/-- `CircuitBreaker._should_attempt_reset` (resilience.py lines 152-158). -/
def should_attempt_reset (cb : CircuitBreaker) (now : ℚ) : Bool :=
  decide (cb.state = CircuitState.opened) &&
    (match cb.next_attempt_time with
     | none => false
     | some t => decide (t ≤ now))

/-- `CircuitBreaker._record_success` (resilience.py lines 160-169). -/
def record_success (cfg : CircuitBreakerConfig) (cb : CircuitBreaker) : CircuitBreaker :=
  let cb := { cb with failure_count := 0 }
  if cb.state = CircuitState.halfOpen then
    let sc := cb.success_count + 1
    if cfg.success_threshold ≤ sc then
      { cb with state := CircuitState.closed, success_count := 0 }
    else
      { cb with success_count := sc }
  else
    cb

/-- `CircuitBreaker._record_failure` (resilience.py lines 171-190), for the
deployed configurations where the `isinstance` guard always holds.  `now` is
the `time.time()` reading of this call. -/
def record_failure (cfg : CircuitBreakerConfig) (cb : CircuitBreaker) (now : ℚ) :
    CircuitBreaker :=
  let cb := { cb with failure_count := cb.failure_count + 1, last_failure_time := some now }
  if cb.state = CircuitState.halfOpen then
    { cb with state := CircuitState.opened, success_count := 0,
              next_attempt_time := some (now + cfg.recovery_timeout) }
  else if cfg.failure_threshold ≤ cb.failure_count then
    { cb with state := CircuitState.opened,
              next_attempt_time := some (now + cfg.recovery_timeout) }
  else
    cb

/-- Observable outcome of `CircuitBreaker.execute`: `rejected` means the wrapped
function was never invoked and `CircuitOpenException` was raised; `returned`
means the call ran and its value was returned; `raised` means the call ran,
failed, and its exception was re-raised. -/
inductive CallResult where
  | rejected
  | returned
  | raised
deriving Repr, DecidableEq

/-- The `try`/`except` body of `CircuitBreaker.execute` (resilience.py lines
205-216): run the wrapped callable, then record success or failure.  `succeeds`
is whether the wrapped callable returns normally. -/
def cbBody (cfg : CircuitBreakerConfig) (cb : CircuitBreaker) (now : ℚ) (succeeds : Bool) :
    CircuitBreaker × CallResult :=
  if succeeds then (record_success cfg cb, CallResult.returned)
  else (record_failure cfg cb now, CallResult.raised)

/-- `CircuitBreaker.execute` (resilience.py lines 192-216).  The several
`time.time()` readings within one call are collapsed to the single instant
`now`. -/
def cbExecute (cfg : CircuitBreakerConfig) (cb : CircuitBreaker) (now : ℚ) (succeeds : Bool) :
    CircuitBreaker × CallResult :=
  if cb.state = CircuitState.opened then
    if should_attempt_reset cb now then
      cbBody cfg { cb with state := CircuitState.halfOpen, success_count := 0 } now succeeds
    else
      (cb, CallResult.rejected)
  else
    cbBody cfg cb now succeeds

/-- Iterated `CircuitBreaker.execute` over a list of calls, each given as the
instant of the call and whether the wrapped callable succeeds. -/
def cbRun (cfg : CircuitBreakerConfig) : CircuitBreaker → List (ℚ × Bool) → CircuitBreaker
  | cb, [] => cb
  | cb, (t, s) :: rest => cbRun cfg (cbExecute cfg cb t s).1 rest

/-- Helper for the half-open closing argument: starting half-open with
`success_count = c` and `c + k = success_threshold` calls left, `k ≥ 1`
consecutive successes close the breaker. -/
theorem cbRun_halfOpen_closes (cfg : CircuitBreakerConfig) (now : ℚ) :
    ∀ (k c : Nat) (cb : CircuitBreaker), cb.state = CircuitState.halfOpen →
      cb.success_count = c → c + k = cfg.success_threshold → 1 ≤ k →
      (cbRun cfg cb (List.replicate k (now, true))).state = CircuitState.closed := by
  intro k
  induction k with
  | zero => intro c cb _ _ _ hk; omega
  | succ k ih =>
    intro c cb hstate hsc hsum _
    rw [List.replicate_succ, cbRun]
    by_cases hk0 : k = 0
    · subst hk0
      have hthr : cfg.success_threshold = c + 1 := by omega
      simp only [cbRun, cbExecute, cbBody, record_success, hstate, hsc, hthr]
      simp
    · have hlt : ¬ cfg.success_threshold ≤ c + 1 := by omega
      have hstep : (cbExecute cfg cb now true).1 =
          { cb with failure_count := 0, success_count := c + 1 } := by
        simp only [cbExecute, cbBody, record_success, hstate, hsc]
        simp [hlt]
      rw [hstep]
      exact ih (c + 1) _ hstate rfl (by omega) (by omega)

/-- Claim C8: the circuit breaker follows the specified state machine — it
opens when the failure count reaches `failure_threshold` while closed and on
any failure while half-open; while open and before the recovery deadline every
call is rejected with `CircuitOpenException` without invoking the wrapped
function; once the deadline has passed the next call proceeds from the
half-open state; and `success_threshold` consecutive successes while half-open
close it again. -/
theorem circuit_breaker_state_machine (cfg : CircuitBreakerConfig) (cb : CircuitBreaker)
    (now t : ℚ) :
    (cb.state = CircuitState.closed → cfg.failure_threshold ≤ cb.failure_count + 1 →
      (cbExecute cfg cb now false).1.state = CircuitState.opened ∧
      (cbExecute cfg cb now false).1.next_attempt_time = some (now + cfg.recovery_timeout)) ∧
    (cb.state = CircuitState.halfOpen →
      (cbExecute cfg cb now false).1.state = CircuitState.opened) ∧
    (cb.state = CircuitState.opened → cb.next_attempt_time = some t → now < t →
      ∀ s : Bool, cbExecute cfg cb now s = (cb, CallResult.rejected)) ∧
    (cb.state = CircuitState.opened → cb.next_attempt_time = some t → t ≤ now →
      ∀ s : Bool, cbExecute cfg cb now s =
        cbBody cfg { cb with state := CircuitState.halfOpen, success_count := 0 } now s) ∧
    (cb.state = CircuitState.halfOpen → cb.success_count = 0 → 1 ≤ cfg.success_threshold →
      (cbRun cfg cb (List.replicate cfg.success_threshold (now, true))).state =
        CircuitState.closed) := by
  refine ⟨?_, ?_, ?_, ?_, ?_⟩
  · intro hstate hthr
    simp only [cbExecute, cbBody, record_failure, hstate]
    simp [hthr]
  · intro hstate
    simp only [cbExecute, cbBody, record_failure, hstate]
    simp
  · intro hstate hnext hlt s
    have hreset : should_attempt_reset cb now = false := by
      simp [should_attempt_reset, hstate, hnext]
      linarith
    simp [cbExecute, hstate, hreset]
  · intro hstate hnext hle s
    have hreset : should_attempt_reset cb now = true := by
      simp [should_attempt_reset, hstate, hnext, hle]
    simp [cbExecute, hstate, hreset]
  · intro hstate hsc hthr
    exact cbRun_halfOpen_closes cfg now cfg.success_threshold 0 cb hstate hsc
      (by omega) hthr

/-- Witness for C8 at the deployed node configuration
(`failure_threshold = 5`, `recovery_timeout = 30`, `success_threshold = 2`),
exercising every conjunct at concrete breaker states. -/
theorem circuit_breaker_state_machine_witness :
    ((cbExecute ⟨5, 30, 2⟩ ⟨CircuitState.closed, 4, 0, none, none⟩ 100 false).1.state =
        CircuitState.opened ∧
      (cbExecute ⟨5, 30, 2⟩ ⟨CircuitState.closed, 4, 0, none, none⟩ 100 false).1.next_attempt_time =
        some 130) ∧
    (cbExecute ⟨5, 30, 2⟩ ⟨CircuitState.halfOpen, 0, 1, some 100, some 130⟩ 140 false).1.state =
      CircuitState.opened ∧
    cbExecute ⟨5, 30, 2⟩ ⟨CircuitState.opened, 5, 0, some 100, some 130⟩ 120 true =
      (⟨CircuitState.opened, 5, 0, some 100, some 130⟩, CallResult.rejected) ∧
    cbExecute ⟨5, 30, 2⟩ ⟨CircuitState.opened, 5, 0, some 100, some 130⟩ 130 true =
      cbBody ⟨5, 30, 2⟩ ⟨CircuitState.halfOpen, 5, 0, some 100, some 130⟩ 130 true ∧
    (cbRun ⟨5, 30, 2⟩ ⟨CircuitState.halfOpen, 0, 0, some 100, some 130⟩
        (List.replicate 2 (131, true))).state = CircuitState.closed := by
  refine ⟨?_, ?_, ?_, ?_, ?_⟩
  · have h := (circuit_breaker_state_machine ⟨5, 30, 2⟩
      ⟨CircuitState.closed, 4, 0, none, none⟩ 100 0).1 rfl (by norm_num)
    refine ⟨h.1, ?_⟩
    rw [h.2]
    norm_num
  · exact (circuit_breaker_state_machine ⟨5, 30, 2⟩
      ⟨CircuitState.halfOpen, 0, 1, some 100, some 130⟩ 140 0).2.1 rfl
  · exact (circuit_breaker_state_machine ⟨5, 30, 2⟩
      ⟨CircuitState.opened, 5, 0, some 100, some 130⟩ 120 130).2.2.1 rfl rfl
      (by norm_num) true
  · exact (circuit_breaker_state_machine ⟨5, 30, 2⟩
      ⟨CircuitState.opened, 5, 0, some 100, some 130⟩ 130 130).2.2.2.1 rfl rfl le_rfl true
  · exact (circuit_breaker_state_machine ⟨5, 30, 2⟩
      ⟨CircuitState.halfOpen, 0, 0, some 100, some 130⟩ 131 0).2.2.2.2 rfl rfl
      (by norm_num)

/-- Claim C9: the computed retry delay equals
`base_delay * exponential_base ^ attempt * backoff_multiplier`, scaled under
jitter by a factor within ±50 percent of it (the code draws the factor from
`[0.5, 1)`, a subrange of ±50 percent), and in all cases the result is capped
by `max_delay`. -/
theorem retry_delay_formula_and_bound (cfg : RetryConfig) (attempt : Nat) (u : ℚ)
    (hu0 : 0 ≤ u) (hu1 : u < 1) :
    calculate_delay cfg attempt u ≤ cfg.max_delay ∧
    (cfg.jitter = false → calculate_delay cfg attempt u =
      min (cfg.base_delay * cfg.exponential_base ^ attempt * cfg.backoff_multiplier)
        cfg.max_delay) ∧
    (cfg.jitter = true → ∃ f : ℚ, 1/2 ≤ f ∧ f ≤ 3/2 ∧
      calculate_delay cfg attempt u =
        min (cfg.base_delay * cfg.exponential_base ^ attempt * cfg.backoff_multiplier * f)
          cfg.max_delay) := by
  refine ⟨min_le_right _ _, ?_, ?_⟩
  · intro hj
    simp [calculate_delay, hj]
  · intro hj
    refine ⟨1/2 + u * (1/2), by linarith, by linarith, ?_⟩
    simp [calculate_delay, hj]

/-- Witness for C9 at the deployed node retry configuration
(`base_delay = 1/2`, `max_delay = 10`, `exponential_base = 2`, jitter on,
multiplier 1), attempt 2, random draw `u = 1/4`. -/
theorem retry_delay_formula_and_bound_witness :
    calculate_delay ⟨3, 1/2, 10, 2, true, 1⟩ 2 (1/4) ≤ 10 ∧
    (∃ f : ℚ, 1/2 ≤ f ∧ f ≤ 3/2 ∧
      calculate_delay ⟨3, 1/2, 10, 2, true, 1⟩ 2 (1/4) = min (1/2 * 2 ^ 2 * 1 * f) 10) := by
  have h := retry_delay_formula_and_bound ⟨3, 1/2, 10, 2, true, 1⟩ 2 (1/4)
    (by norm_num) (by norm_num)
  exact ⟨h.1, h.2.2 rfl⟩

/-- Claim C10: when the `indexer_state` table has no `last_indexed_block` row,
`get_last_indexed_block` returns `0` rather than failing, so an empty store is
indistinguishable at this interface from one whose checkpoint was set to
block 0. -/
theorem get_last_indexed_block_empty (tbl : List IndexerStateRow)
    (h : fetchLastIndexedRow tbl = none) :
    get_last_indexed_block tbl = 0 ∧
    get_last_indexed_block tbl = get_last_indexed_block (set_last_indexed_block [] 0) := by
  have h0 : get_last_indexed_block tbl = 0 := by
    simp [get_last_indexed_block, h]
  refine ⟨h0, ?_⟩
  rw [h0]
  rfl

/-- Witness for C10 at the empty table. -/
theorem get_last_indexed_block_empty_witness :
    get_last_indexed_block [] = 0 ∧
    get_last_indexed_block [] = get_last_indexed_block (set_last_indexed_block [] 0) :=
  get_last_indexed_block_empty [] rfl

/-! ### Sync loop — `rust_indexer.py`, `_sync_blocks` (lines 135-224) -/

/-- Outcome of handling one block summary inside the `_sync_blocks` loop
(rust_indexer.py lines 191-212): the summary may lack a hash (`continue`),
`get_block_details` may return nothing (`continue`), `_process_block` may
raise (the exception is caught and logged and the loop continues), or the
block is processed successfully. -/
inductive BlockOutcome where
  | missingHash
  | detailsFail
  | processFail
  | processOk
deriving Repr, DecidableEq

/-- The `processed_count` accumulation of the `_sync_blocks` loop: only a fully
processed block increments the counter; every other outcome moves on to the
next summary. -/
def processedCount : List BlockOutcome → Nat
  | [] => 0
  | BlockOutcome.processOk :: rest => processedCount rest + 1
  | BlockOutcome.missingHash :: rest => processedCount rest
  | BlockOutcome.detailsFail :: rest => processedCount rest
  | BlockOutcome.processFail :: rest => processedCount rest

/-- The length of the contiguous prefix of successful blocks — the quantity the
claim says `processed` is. -/
def okRunLength : List BlockOutcome → Nat
  | BlockOutcome.processOk :: rest => okRunLength rest + 1
  | _ => 0

/-- Inputs of one `_sync_blocks` tick that come from the database, the
configuration and the CLI. `lastFinalizedBlockNumber` is the `blockNumber`
field of `get_last_finalized_block` (`none` when the call fails or the field
is absent); `outcomes` lists, in order, what happens to each summary returned
by `get_blocks_by_height(start, end)`. -/
structure SyncEnv where
  lastFinalizedBlockNumber : Option ℤ
  blockCount : Nat
  startFromBlock : ℤ
  outcomes : List BlockOutcome
deriving Repr, DecidableEq

/-- The `start` computation of `_sync_blocks` (rust_indexer.py lines 157-169):
genesis when the store is empty and `start_from_block == 0`, otherwise
`last_indexed + 1`. -/
def syncStart (env : SyncEnv) (lastIndexed : ℤ) : ℤ :=
  if env.blockCount = 0 ∧ env.startFromBlock = 0 then 0 else lastIndexed + 1

/-- `_sync_blocks` (rust_indexer.py lines 135-224) as a checkpoint
transformer: the returned value is the `last_indexed_block` after the tick.
Early returns (no finalized data, already up to date, no summaries) leave the
checkpoint unchanged, as does a tick where `processed_count == 0`.  The
`if not latest_block_number` guard follows Python truthiness: a missing field
and the value `0` both abort the tick. -/
def syncBlocks (env : SyncEnv) (lastIndexed : ℤ) : ℤ :=
  match env.lastFinalizedBlockNumber with
  | none => lastIndexed
  | some latest =>
    if latest = 0 then lastIndexed
    else if latest ≤ lastIndexed then lastIndexed
    else if env.outcomes = [] then lastIndexed
    else if 0 < processedCount env.outcomes then
      syncStart env lastIndexed + processedCount env.outcomes - 1
    else lastIndexed

/-- `processedCount` counts all successes in the batch, not only the
contiguous prefix. -/
theorem processedCount_eq_count (outcomes : List BlockOutcome) :
    processedCount outcomes = outcomes.count BlockOutcome.processOk := by
  induction outcomes with
  | nil => rfl
  | cons o rest ih =>
    cases o <;> simp [processedCount, List.count_cons, ih]

/-- Claim C1 counterexample: with `last_indexed = 10`, a non-empty store and a
batch starting at 11 whose four blocks come back success, failure, success,
success, the code advances the checkpoint to `11 + 3 - 1 = 13`, not to
`11 + 1 - 1 = 11` as the contiguous-prefix rule demands, and `13` is past the
failed block `12`; the failure did not stop the batch (two blocks were
processed after it). -/
theorem sync_checkpoint_counterexample :
    syncBlocks ⟨some 20, 5, 0,
      [BlockOutcome.processOk, BlockOutcome.processFail,
       BlockOutcome.processOk, BlockOutcome.processOk]⟩ 10 = 13 ∧
    okRunLength
      [BlockOutcome.processOk, BlockOutcome.processFail,
       BlockOutcome.processOk, BlockOutcome.processOk] = 1 ∧
    (13 : ℤ) ≠ 11 + (1 : ℤ) - 1 ∧
    (11 + 1 : ℤ) < 13 := by
  refine ⟨?_, rfl, by norm_num, by norm_num⟩
  rfl

/-- Claim C1 as amended: a failure on block `k` does not stop the batch — the
exception is caught and the loop continues with `k + 1` — and after the batch
the checkpoint is set to `start + processed - 1` where `processed` counts all
successfully processed blocks of the batch (the checkpoint is unchanged when
no block succeeded), so the checkpoint can move past a failed block. -/
theorem sync_checkpoint_counts_all_successes (env : SyncEnv) (lastIndexed latest : ℤ)
    (h1 : env.lastFinalizedBlockNumber = some latest) (h2 : latest ≠ 0)
    (h3 : lastIndexed < latest) (h4 : env.outcomes ≠ []) :
    syncBlocks env lastIndexed =
      (if 0 < env.outcomes.count BlockOutcome.processOk then
        syncStart env lastIndexed + env.outcomes.count BlockOutcome.processOk - 1
      else lastIndexed) ∧
    okRunLength env.outcomes ≤ env.outcomes.count BlockOutcome.processOk := by
  constructor
  · simp only [syncBlocks, h1, if_neg h2, if_neg (not_le.mpr h3), if_neg h4,
      processedCount_eq_count]
  · rw [← processedCount_eq_count]
    induction env.outcomes with
    | nil => simp [okRunLength, processedCount]
    | cons o rest ih =>
      cases o with
      | missingHash => simp [okRunLength, processedCount]
      | detailsFail => simp [okRunLength, processedCount]
      | processFail => simp [okRunLength, processedCount]
      | processOk =>
        simp only [okRunLength, processedCount]
        omega

/-- Witness for the amended C1 at the counterexample batch. -/
theorem sync_checkpoint_counts_all_successes_witness :
    syncBlocks ⟨some 20, 5, 0,
      [BlockOutcome.processOk, BlockOutcome.processFail,
       BlockOutcome.processOk, BlockOutcome.processOk]⟩ 10 =
      (if 0 < ([BlockOutcome.processOk, BlockOutcome.processFail,
          BlockOutcome.processOk, BlockOutcome.processOk].count BlockOutcome.processOk) then
        syncStart ⟨some 20, 5, 0,
          [BlockOutcome.processOk, BlockOutcome.processFail,
           BlockOutcome.processOk, BlockOutcome.processOk]⟩ 10 +
          ([BlockOutcome.processOk, BlockOutcome.processFail,
            BlockOutcome.processOk, BlockOutcome.processOk].count BlockOutcome.processOk) - 1
      else 10) ∧
    okRunLength
      [BlockOutcome.processOk, BlockOutcome.processFail,
       BlockOutcome.processOk, BlockOutcome.processOk] ≤
      [BlockOutcome.processOk, BlockOutcome.processFail,
       BlockOutcome.processOk, BlockOutcome.processOk].count BlockOutcome.processOk :=
  sync_checkpoint_counts_all_successes _ 10 20 rfl (by norm_num) (by norm_num)
    (by simp)

/-! ### Validator upserts — `rust_indexer.py`, `_process_validators`
(lines 605-638) and `_update_validator_states` (lines 401-455) -/

/-- A row of the `validators` table (models.py lines 119-134), restricted to
the columns the two upserts write (`created_at`/`updated_at` timestamps are
not modelled). -/
structure ValidatorRow where
  public_key : String
  name : String
  total_stake : ℤ
  first_seen_block : ℤ
  last_seen_block : ℤ
  status : String
deriving Repr, DecidableEq

/-- One entry of `blockInfo.bonds` or of the parsed `bonds` CLI output. -/
structure BondEntry where
  validator : String
  stake : ℤ
deriving Repr, DecidableEq

/-- Row lookup by `public_key` (the primary key, hence at most one row). -/
def findValidator (tbl : List ValidatorRow) (key : String) : Option ValidatorRow :=
  tbl.find? (fun r => r.public_key = key)

/-- The raw-SQL upsert of `_process_validators` (rust_indexer.py lines
613-629): `ON CONFLICT (public_key) DO UPDATE SET total_stake =
GREATEST(validators.total_stake, :stake), last_seen_block = :block_number,
status = 'active'`; a fresh row gets the short display name
`key[:20] + "..."`. -/
def upsertValidatorGreatest (tbl : List ValidatorRow) (bond : BondEntry) (blockNumber : ℤ) :
    List ValidatorRow :=
  if tbl.any (fun r => r.public_key = bond.validator) then
    tbl.map (fun r =>
      if r.public_key = bond.validator then
        { r with total_stake := max r.total_stake bond.stake,
                 last_seen_block := blockNumber, status := "active" }
      else r)
  else
    tbl ++ [⟨bond.validator, bond.validator.take 20 ++ "...", bond.stake,
             blockNumber, blockNumber, "active"⟩]

/-- The SQLAlchemy upsert of `_update_validator_states` (rust_indexer.py lines
426-444): `on_conflict_do_update` SETs `total_stake = :stake` (a plain
overwrite, no GREATEST), `last_seen_block = :current_block` and the
active/bonded status. -/
def upsertValidatorRefresh (tbl : List ValidatorRow) (bond : BondEntry) (currentBlock : ℤ)
    (isActive : Bool) : List ValidatorRow :=
  let st := if isActive then "active" else "bonded"
  if tbl.any (fun r => r.public_key = bond.validator) then
    tbl.map (fun r =>
      if r.public_key = bond.validator then
        { r with total_stake := bond.stake, last_seen_block := currentBlock, status := st }
      else r)
  else
    tbl ++ [⟨bond.validator, bond.validator, bond.stake, currentBlock, currentBlock, st⟩]

/-- `find?` through a key-preserving conditional map: the first matching row is
mapped, and stays the first match. -/
theorem findValidator_map_update (tbl : List ValidatorRow) (key : String)
    (f : ValidatorRow → ValidatorRow) (hf : ∀ r, (f r).public_key = r.public_key)
    (r : ValidatorRow) (h : findValidator tbl key = some r) :
    findValidator (tbl.map (fun x => if x.public_key = key then f x else x)) key =
      some (f r) := by
  induction tbl with
  | nil => simp [findValidator] at h
  | cons a rest ih =>
    by_cases ha : a.public_key = key
    · have hr : r = a := by
        simp [findValidator, List.find?_cons, ha] at h
        exact h.symm
      subst hr
      simp [findValidator, List.find?_cons, ha, hf]
    · have h' : findValidator rest key = some r := by
        simpa [findValidator, List.find?_cons, ha] using h
      simpa [findValidator, List.find?_cons, ha] using ih h'

/-- A found row makes the `any` existence test true. -/
theorem findValidator_any (tbl : List ValidatorRow) (key : String) (r : ValidatorRow)
    (h : findValidator tbl key = some r) :
    tbl.any (fun x => x.public_key = key) = true := by
  induction tbl with
  | nil => simp [findValidator] at h
  | cons a rest ih =>
    by_cases ha : a.public_key = key
    · simp [List.any_cons, ha]
    · have h' : findValidator rest key = some r := by
        simpa [findValidator, List.find?_cons, ha] using h
      simp [List.any_cons, ih h']

/-- Claim C2 counterexample: a validator stored with `total_stake = 100` whose
periodic refresh observes stake `50` ends with `total_stake = 50`: the refresh
path overwrites the stake instead of taking the maximum, so a bonds
observation can decrease `Validator.total_stake`. -/
theorem validator_refresh_decreases_stake :
    findValidator
      (upsertValidatorRefresh [⟨"v", "v", 100, 0, 0, "active"⟩] ⟨"v", 50⟩ 7 true) "v" =
      some ⟨"v", "v", 50, 0, 7, "active"⟩ ∧
    (50 : ℤ) < 100 ∧ (50 : ℤ) ≠ max 100 50 := by
  refine ⟨?_, by norm_num, by norm_num⟩
  rfl

/-- Claim C2 as amended: the per-block bond upsert of `_process_validators`
sets `total_stake` to `GREATEST(existing, stake)` and therefore never
decreases it, while the periodic refresh of `_update_validator_states`
overwrites `total_stake` with the newly observed stake, which can decrease
it. -/
theorem validator_stake_upsert_behaviour (tbl : List ValidatorRow) (bond : BondEntry)
    (blockNumber currentBlock : ℤ) (isActive : Bool) (r : ValidatorRow)
    (h : findValidator tbl bond.validator = some r) :
    (∃ r', findValidator (upsertValidatorGreatest tbl bond blockNumber) bond.validator =
        some r' ∧ r'.total_stake = max r.total_stake bond.stake ∧
        r.total_stake ≤ r'.total_stake) ∧
    (∃ r'', findValidator (upsertValidatorRefresh tbl bond currentBlock isActive)
        bond.validator = some r'' ∧ r''.total_stake = bond.stake) := by
  have hany := findValidator_any tbl bond.validator r h
  constructor
  · refine ⟨{ r with
              total_stake := max r.total_stake bond.stake,
              last_seen_block := blockNumber, status := "active" }, ?_, rfl,
            le_max_left _ _⟩
    simpa [upsertValidatorGreatest, hany] using
      findValidator_map_update tbl bond.validator
        (fun x => { x with
                    total_stake := max x.total_stake bond.stake,
                    last_seen_block := blockNumber, status := "active" })
        (fun _ => rfl) r h
  · refine ⟨{ r with
              total_stake := bond.stake, last_seen_block := currentBlock,
              status := (if isActive then "active" else "bonded") }, ?_, rfl⟩
    simpa [upsertValidatorRefresh, hany] using
      findValidator_map_update tbl bond.validator
        (fun x => { x with
                    total_stake := bond.stake, last_seen_block := currentBlock,
                    status := (if isActive then "active" else "bonded") })
        (fun _ => rfl) r h

/-- Witness for the amended C2 at the counterexample table. -/
theorem validator_stake_upsert_behaviour_witness :
    (∃ r', findValidator
        (upsertValidatorGreatest [⟨"v", "v", 100, 0, 0, "active"⟩] ⟨"v", 50⟩ 7) "v" =
        some r' ∧ r'.total_stake = max (100 : ℤ) 50 ∧ (100 : ℤ) ≤ r'.total_stake) ∧
    (∃ r'', findValidator
        (upsertValidatorRefresh [⟨"v", "v", 100, 0, 0, "active"⟩] ⟨"v", 50⟩ 7 true) "v" =
        some r'' ∧ r''.total_stake = (50 : ℤ)) :=
  validator_stake_upsert_behaviour [⟨"v", "v", 100, 0, 0, "active"⟩] ⟨"v", 50⟩ 7 7 true
    ⟨"v", "v", 100, 0, 0, "active"⟩ rfl

/-! ### Store rows and the reorg handler — `models.py`, `reorg_handler.py` -/

/-- A `blocks` row (models.py lines 18-53), restricted to the identity and
ordering fields the claims are about. -/
structure BlockRow where
  block_number : ℤ
  block_hash : String
  parent_hash : String
  timestamp : ℤ
  proposer : String
  deployment_count : Nat
deriving Repr, DecidableEq

/-- A `deployments` row (models.py lines 56-89), restricted to the fields the
claims are about (the Rholang term text, timestamps and phlo figures are not
modelled). -/
structure DeploymentRow where
  deploy_id : String
  block_hash : String
  block_number : ℤ
  deployer : String
  errored : Bool
  deployment_type : String
  status : String
deriving Repr, DecidableEq

/-- A `transfers` row (models.py lines 92-116).  `deploy_id` mirrors the
`deploy_data.get("sig")` the extractor stores, which can be absent.
`amount_asi` is the `Numeric(20, 8)` column, modelled as a rational. -/
structure TransferRow where
  deploy_id : Option String
  block_number : ℤ
  from_address : String
  to_address : String
  amount_dust : ℤ
  amount_asi : ℚ
  status : String
deriving Repr, DecidableEq

/-- A `validator_bonds` row (models.py lines 137-156). -/
structure ValidatorBondRow where
  block_hash : String
  block_number : ℤ
  validator_public_key : String
  stake : ℤ
deriving Repr, DecidableEq

/-- A `block_validators` junction row (models.py lines 159-168); it has no
`block_number` column, only the block hash. -/
structure BlockValidatorRow where
  block_hash : String
  validator_public_key : String
deriving Repr, DecidableEq

/-- A `balance_states` row (models.py lines 187-209). -/
structure BalanceStateRow where
  address : String
  block_number : ℤ
  unbonded_balance_dust : ℤ
  unbonded_balance_asi : ℚ
  bonded_balance_dust : ℤ
  bonded_balance_asi : ℚ
deriving Repr, DecidableEq

/-- A `reorgs` audit row (reorg_handler.py `_record_reorg`, lines 360-385). -/
structure ReorgRow where
  fork_point : ℤ
  depth : ℤ
  orphaned_blocks : List String
  affected_deployments : Nat
  affected_transfers : Nat
deriving Repr, DecidableEq

/-- The relational store: one list per table the core writes. -/
structure Store where
  blocks : List BlockRow
  deployments : List DeploymentRow
  transfers : List TransferRow
  validators : List ValidatorRow
  validator_bonds : List ValidatorBondRow
  block_validators : List BlockValidatorRow
  balance_states : List BalanceStateRow
  indexer_state : List IndexerStateRow
  reorgs : List ReorgRow
deriving Repr, DecidableEq

/-- The fields of `ReorgDetection` (reorg_handler.py lines 27-47) that
`_handle_reorg` consumes. -/
structure ReorgDetection where
  fork_point : ℤ
  orphaned_blocks : List String
  affected_deployments : Nat
  affected_transfers : Nat
  depth : ℤ
deriving Repr, DecidableEq

/-- `ReorgHandler._rollback_orphaned_data` (reorg_handler.py lines 265-321):
six deletes in dependency order within one session — balance states, transfers,
deployments and validator bonds by `block_number >= fork_point`, then the
`block_validators` rows whose `block_hash` is selected from the still-intact
`blocks` table at `block_number >= fork_point`, then the blocks themselves. -/
def rollback_orphaned_data (fork_point : ℤ) (s : Store) : Store :=
  let s := { s with balance_states :=
    s.balance_states.filter (fun r => decide (r.block_number < fork_point)) }
  let s := { s with transfers :=
    s.transfers.filter (fun r => decide (r.block_number < fork_point)) }
  let s := { s with deployments :=
    s.deployments.filter (fun r => decide (r.block_number < fork_point)) }
  let s := { s with validator_bonds :=
    s.validator_bonds.filter (fun r => decide (r.block_number < fork_point)) }
  let s := { s with block_validators :=
    s.block_validators.filter (fun r =>
      ! s.blocks.any (fun b =>
          decide (b.block_hash = r.block_hash) && decide (fork_point ≤ b.block_number))) }
  { s with blocks := s.blocks.filter (fun r => decide (r.block_number < fork_point)) }

/-- `ReorgHandler._handle_reorg` (reorg_handler.py lines 230-263): roll back
orphaned data, re-index canonical blocks (`_reindex_canonical_blocks` only
logs — the actual re-indexing happens on the next sync tick), rewind the
checkpoint to `fork_point - 1`, and record the reorg. -/
def handle_reorg (reorg : ReorgDetection) (s : Store) : Store :=
  let s := rollback_orphaned_data reorg.fork_point s
  let s := { s with indexer_state :=
    set_last_indexed_block s.indexer_state (reorg.fork_point - 1) }
  { s with reorgs := s.reorgs ++
    [⟨reorg.fork_point, reorg.depth, reorg.orphaned_blocks,
      reorg.affected_deployments, reorg.affected_transfers⟩] }

/-- The checkpoint upsert always leaves exactly the written value readable. -/
theorem get_set_last_indexed_block (tbl : List IndexerStateRow) (n : ℤ) :
    get_last_indexed_block (set_last_indexed_block tbl n) = n := by
  induction tbl with
  | nil => rfl
  | cons r rest ih =>
    by_cases hr : r.key = "last_indexed_block"
    · simp [set_last_indexed_block, get_last_indexed_block, fetchLastIndexedRow,
        List.find?_cons, hr]
    · by_cases hrest : rest.any (fun x => x.key = "last_indexed_block")
      · have hset : set_last_indexed_block (r :: rest) n =
            r :: set_last_indexed_block rest n := by
          simp [set_last_indexed_block, List.any_cons, hr, hrest]
        rw [hset]
        simpa [get_last_indexed_block, fetchLastIndexedRow, List.find?_cons, hr] using ih
      · have hset : set_last_indexed_block (r :: rest) n =
            r :: (rest ++ [⟨"last_indexed_block", n⟩]) := by
          simp [set_last_indexed_block, List.any_cons, hr, hrest]
        rw [hset]
        have hset' : set_last_indexed_block rest n = rest ++ [⟨"last_indexed_block", n⟩] := by
          simp [set_last_indexed_block, hrest]
        rw [← hset']
        simpa [get_last_indexed_block, fetchLastIndexedRow, List.find?_cons, hr] using ih


/-- Claim C5: after `handle_reorg` at fork point `f`, no Block, Deployment,
Transfer, ValidatorBond or BalanceState row with `block_number ≥ f` remains,
no BlockValidator row of a block that was stored at height `≥ f` remains, and
the checkpoint is rewound to `f - 1`.  The deletes run leaves-first in the
order BalanceState, Transfer, Deployment, ValidatorBond, BlockValidator (by
affected block hash), Block, as `rollback_orphaned_data` spells out. -/
theorem reorg_rollback_cleans_fork (reorg : ReorgDetection) (s : Store) :
    (∀ b, b ∈ (handle_reorg reorg s).blocks → b.block_number < reorg.fork_point) ∧
    (∀ d, d ∈ (handle_reorg reorg s).deployments → d.block_number < reorg.fork_point) ∧
    (∀ t, t ∈ (handle_reorg reorg s).transfers → t.block_number < reorg.fork_point) ∧
    (∀ vb, vb ∈ (handle_reorg reorg s).validator_bonds →
      vb.block_number < reorg.fork_point) ∧
    (∀ bs, bs ∈ (handle_reorg reorg s).balance_states →
      bs.block_number < reorg.fork_point) ∧
    (∀ bv, bv ∈ (handle_reorg reorg s).block_validators → ∀ b, b ∈ s.blocks →
      b.block_hash = bv.block_hash → b.block_number < reorg.fork_point) ∧
    get_last_indexed_block (handle_reorg reorg s).indexer_state = reorg.fork_point - 1 := by
  refine ⟨?_, ?_, ?_, ?_, ?_, ?_, ?_⟩
  · intro b hb
    have := (List.mem_filter.mp hb).2
    simpa using this
  · intro d hd
    have := (List.mem_filter.mp hd).2
    simpa using this
  · intro t ht
    have := (List.mem_filter.mp ht).2
    simpa using this
  · intro vb hvb
    have := (List.mem_filter.mp hvb).2
    simpa using this
  · intro bs hbs
    have := (List.mem_filter.mp hbs).2
    simpa using this
  · intro bv hbv b hb hhash
    have hkeep := (List.mem_filter.mp hbv).2
    simp only [Bool.not_eq_true', List.any_eq_false] at hkeep
    have := hkeep b hb
    simp only [Bool.and_eq_true, decide_eq_true_eq] at this
    by_contra hge
    exact this ⟨hhash, not_lt.mp hge⟩
  · exact get_set_last_indexed_block _ _

/-- Witness for C5 on a concrete five-table store forked at height 2. -/
theorem reorg_rollback_cleans_fork_witness :
    (∀ b, b ∈ (handle_reorg ⟨2, ["h2"], 1, 1, 1⟩
        ⟨[⟨1, "h1", "h0", 5, "p", 0⟩, ⟨2, "h2", "h1", 6, "p", 1⟩], [⟨"d2", "h2", 2, "a", false, "smart_contract", "included"⟩],
         [⟨some "d2", 2, "x", "y", 5, 5/100000000, "success"⟩], [],
         [⟨"h2", 2, "v", 10⟩], [⟨"h2", "v"⟩, ⟨"h1", "v"⟩], [⟨"x", 2, 5, 0, 0, 0⟩],
         [⟨"last_indexed_block", 2⟩], []⟩).blocks → b.block_number < 2) ∧
    (∀ bv, bv ∈ (handle_reorg ⟨2, ["h2"], 1, 1, 1⟩
        ⟨[⟨1, "h1", "h0", 5, "p", 0⟩, ⟨2, "h2", "h1", 6, "p", 1⟩], [⟨"d2", "h2", 2, "a", false, "smart_contract", "included"⟩],
         [⟨some "d2", 2, "x", "y", 5, 5/100000000, "success"⟩], [],
         [⟨"h2", 2, "v", 10⟩], [⟨"h2", "v"⟩, ⟨"h1", "v"⟩], [⟨"x", 2, 5, 0, 0, 0⟩],
         [⟨"last_indexed_block", 2⟩], []⟩).block_validators →
      ∀ b, b ∈ [⟨1, "h1", "h0", 5, "p", 0⟩, (⟨2, "h2", "h1", 6, "p", 1⟩ : BlockRow)] →
        b.block_hash = bv.block_hash → b.block_number < 2) ∧
    get_last_indexed_block (handle_reorg ⟨2, ["h2"], 1, 1, 1⟩
        ⟨[⟨1, "h1", "h0", 5, "p", 0⟩, ⟨2, "h2", "h1", 6, "p", 1⟩], [⟨"d2", "h2", 2, "a", false, "smart_contract", "included"⟩],
         [⟨some "d2", 2, "x", "y", 5, 5/100000000, "success"⟩], [],
         [⟨"h2", 2, "v", 10⟩], [⟨"h2", "v"⟩, ⟨"h1", "v"⟩], [⟨"x", 2, 5, 0, 0, 0⟩],
         [⟨"last_indexed_block", 2⟩], []⟩).indexer_state = 1 := by
  have h := reorg_rollback_cleans_fork ⟨2, ["h2"], 1, 1, 1⟩
    ⟨[⟨1, "h1", "h0", 5, "p", 0⟩, ⟨2, "h2", "h1", 6, "p", 1⟩], [⟨"d2", "h2", 2, "a", false, "smart_contract", "included"⟩],
     [⟨some "d2", 2, "x", "y", 5, 5/100000000, "success"⟩], [],
     [⟨"h2", 2, "v", 10⟩], [⟨"h2", "v"⟩, ⟨"h1", "v"⟩], [⟨"x", 2, 5, 0, 0, 0⟩],
     [⟨"last_indexed_block", 2⟩], []⟩
  exact ⟨h.1, h.2.2.2.2.2.1, h.2.2.2.2.2.2⟩

/-! ### Text scanning primitives

The transfer extractor works by `re.findall` over a handful of fixed regular
expressions.  Each pattern is embedded as a deterministic matcher over
character lists; this is faithful because every quantified class in the
patterns is disjoint from the character that must follow it (a quoted group
cannot contain the closing quote, a digit run cannot contain the following
comma, and so on), so greedy matching with backtracking degenerates to
taking maximal runs.  `re.findall` semantics — scan left to right, emit the
groups of each match and resume after it, advance one character on failure —
is `scanAll` below. -/

/-- `[0-9]`. -/
def isDigitCh (c : Char) : Bool := decide ('0' ≤ c) && decide (c ≤ '9')

/-- `[0-9a-zA-Z]` (the pattern class `[0-9a-zA-Z0-9]` of the source). -/
def isAlnumCh (c : Char) : Bool :=
  isDigitCh c || (decide ('a' ≤ c) && decide (c ≤ 'z')) ||
    (decide ('A' ≤ c) && decide (c ≤ 'Z'))

/-- `\w` on the ASCII terms the extractor sees. -/
def isWordCh (c : Char) : Bool := isAlnumCh c || c = '_'

/-- `\s` on ASCII: space, tab, newline, carriage return, vertical tab,
form feed. -/
def isSpaceCh (c : Char) : Bool :=
  c = ' ' || c = '\t' || c = '\n' || c = '\r' || c = '\x0b' || c = '\x0c'

/-- Match a literal character sequence, returning the rest of the input. -/
def matchLit : List Char → List Char → Option (List Char)
  | [], input => some input
  | _ :: _, [] => none
  | l :: ls, c :: cs => if c = l then matchLit ls cs else none

/-- Split the maximal run of characters satisfying `p` off the input. -/
def takeRun (p : Char → Bool) : List Char → List Char × List Char
  | [] => ([], [])
  | c :: cs =>
    if p c then
      match takeRun p cs with
      | (run, rest) => (c :: run, rest)
    else ([], c :: cs)

/-- `p+` as a maximal nonempty run. -/
def matchRun1 (p : Char → Bool) (input : List Char) : Option (List Char × List Char) :=
  match takeRun p input with
  | ([], _) => none
  | (run, rest) => some (run, rest)

/-- `\s*`. -/
def skipSpaces (input : List Char) : List Char := (takeRun isSpaceCh input).2

/-- Greedy `[0-9a-zA-Z]` repeated 54 to 56 times followed in every use by a
non-alphanumeric character: equivalent to the maximal alphanumeric run having
length 54 to 56. -/
def matchAlnum54to56 (input : List Char) : Option (List Char × List Char) :=
  match matchRun1 isAlnumCh input with
  | none => none
  | some (run, rest) =>
    if 54 ≤ run.length ∧ run.length ≤ 56 then some (run, rest) else none

/-- `re.findall`: at each position try the matcher; on a match emit the groups
and resume after it, otherwise advance one character.  Every matcher below
consumes at least one character, so fuel equal to the input length suffices. -/
def scanAll {α : Type} (tryAt : List Char → Option (α × List Char)) :
    Nat → List Char → List α
  | 0, _ => []
  | _, [] => []
  | fuel + 1, c :: cs =>
    match tryAt (c :: cs) with
    | some (a, rest) => a :: scanAll tryAt fuel rest
    | none => scanAll tryAt fuel cs

/-- `list.startswith` via character lists (used for the `startswith('1111')`
checks; kernel-computable, unlike `String.startsWith`). -/
def listIsPrefixOf : List Char → List Char → Bool
  | [], _ => true
  | _ :: _, [] => false
  | p :: ps, c :: cs => decide (p = c) && listIsPrefixOf ps cs

/-- Python `needle in haystack` on strings. -/
def containsSubList (needle : List Char) : List Char → Bool
  | [] => listIsPrefixOf needle []
  | c :: cs => listIsPrefixOf needle (c :: cs) || containsSubList needle cs

/-- Python `needle in haystack`. -/
def containsSub (haystack needle : String) : Bool :=
  containsSubList needle.data haystack.data

/-- Python `str.lower()` on the ASCII range. -/
def toLowerCh (c : Char) : Char :=
  if 'A' ≤ c ∧ c ≤ 'Z' then Char.ofNat (c.toNat + 32) else c

/-- Python `str.lower()` on the ASCII terms the extractor sees. -/
def lowerStr (s : String) : String := String.mk (s.data.map toLowerCh)

/-- Python `s.startswith("1111")`. -/
def startsWith1111 (s : String) : Bool := listIsPrefixOf "1111".data s.data

/-- Python `int(s)` on a `\d+` capture. -/
def natOfDigits (s : String) : ℕ :=
  s.data.foldl (fun acc c => acc * 10 + (c.toNat - 48)) 0

/-- Python slicing `s[:n]`. -/
def strTake (s : String) (n : ℕ) : String := String.mk (s.data.take n)

/-! ### The extractor patterns — `rust_indexer.py` lines 27-51 -/

/-- `DIRECT_TRANSFER_PATTERN` (rust_indexer.py line 41) at the current
position: the literal `match ("` then group 1 = `1111` plus one or more
non-quote characters, `", "`, group 2 likewise, `", "`, group 3 = digits,
then `)`. -/
def tryDirectAt (input : List Char) :
    Option ((String × String × String) × List Char) := do
  let rest ← matchLit "match (\"1111".data input
  let (r1, rest) ← matchRun1 (fun c => c != '"') rest
  let rest ← matchLit "\", \"1111".data rest
  let (r2, rest) ← matchRun1 (fun c => c != '"') rest
  let rest ← matchLit "\", ".data rest
  let (d, rest) ← matchRun1 isDigitCh rest
  let rest ← matchLit ")".data rest
  some ((String.mk ("1111".data ++ r1), String.mk ("1111".data ++ r2), String.mk d), rest)

/-- `\s*` then a literal: the recurring `\s*\(`, `\s*,`, `\s*"transfer"` …
pieces of the patterns. -/
def matchSpacedLit (lit : String) (input : List Char) : Option (List Char) :=
  matchLit lit.data (skipSpaces input)

/-- A quoted 54-to-56 character alphanumeric group: `"…"`. -/
def matchQuotedAddr (input : List Char) : Option (List Char × List Char) := do
  let rest ← matchLit "\"".data input
  let (addr, rest) ← matchAlnum54to56 rest
  let rest ← matchLit "\"".data rest
  some (addr, rest)

/-- The shared head `@vault!\s*\(\s*"transfer"\s*,` of the two vault
patterns. -/
def matchVaultHead (input : List Char) : Option (List Char) := do
  let rest ← matchLit "@vault!".data input
  let rest ← matchSpacedLit "(" rest
  let rest ← matchSpacedLit "\"transfer\"" rest
  matchSpacedLit "," rest

/-- The shared head `match\s*\(\s*"A"\s*,\s*"A"\s*,\s*\d+\s*\)` of
`TRANSFER_PATTERNS[2]` and `ADDRESS_BINDING_PATTERNS[2]`; yields the two
quoted addresses and the digit group. -/
def matchTripleHead (input : List Char) :
    Option ((List Char × List Char × List Char) × List Char) := do
  let rest ← matchLit "match".data input
  let rest ← matchSpacedLit "(" rest
  let (a1, rest) ← matchQuotedAddr (skipSpaces rest)
  let rest ← matchSpacedLit "," rest
  let (a2, rest) ← matchQuotedAddr (skipSpaces rest)
  let rest ← matchSpacedLit "," rest
  let (d, rest) ← matchRun1 isDigitCh (skipSpaces rest)
  let rest ← matchSpacedLit ")" rest
  some ((a1, a2, d), rest)

/-- `TRANSFER_PATTERNS[0]` (rust_indexer.py line 30): an `@vault!` transfer
with a literal quoted 54-to-56 character recipient, capturing recipient and
amount; the amount must be followed by a comma. -/
def tryVaultLiteralAt (input : List Char) : Option ((String × String) × List Char) := do
  let rest ← matchVaultHead input
  let (addr, rest) ← matchQuotedAddr (skipSpaces rest)
  let rest ← matchSpacedLit "," rest
  let (d, rest) ← matchRun1 isDigitCh (skipSpaces rest)
  let rest ← matchSpacedLit "," rest
  some ((String.mk addr, String.mk d), rest)

/-- `TRANSFER_PATTERNS[1]` (rust_indexer.py line 32): an `@vault!` transfer
whose recipient is a bare `\w+` identifier. -/
def tryVaultVariableAt (input : List Char) : Option ((String × String) × List Char) := do
  let rest ← matchVaultHead input
  let (v, rest) ← matchRun1 isWordCh (skipSpaces rest)
  let rest ← matchSpacedLit "," rest
  let (d, rest) ← matchRun1 isDigitCh (skipSpaces rest)
  let rest ← matchSpacedLit "," rest
  some ((String.mk v, String.mk d), rest)

/-- `TRANSFER_PATTERNS[2]` (rust_indexer.py line 34): a `match` triple with two
literal quoted 54-to-56 character addresses and a digit amount. -/
def tryMatchTripleAt (input : List Char) :
    Option ((String × String × String) × List Char) := do
  let ((a1, a2, d), rest) ← matchTripleHead input
  some ((String.mk a1, String.mk a2, String.mk d), rest)

/-- `TRANSFER_PATTERNS[3]` (rust_indexer.py line 36): the `ASIVault!`
`findOrCreate` shape, capturing address and amount. -/
def tryFindOrCreateAt (input : List Char) : Option ((String × String) × List Char) := do
  let rest ← matchLit "ASIVault!".data input
  let rest ← matchSpacedLit "(" rest
  let rest ← matchSpacedLit "\"findOrCreate\"" rest
  let rest ← matchSpacedLit "," rest
  let (addr, rest) ← matchQuotedAddr (skipSpaces rest)
  let rest ← matchSpacedLit "," rest
  let (d, rest) ← matchRun1 isDigitCh (skipSpaces rest)
  let rest ← matchSpacedLit ")" rest
  some ((String.mk addr, String.mk d), rest)

/-- `ADDRESS_BINDING_PATTERNS[0]` (rust_indexer.py line 46):
a `match "address"` block binding one variable; groups (address, name). -/
def tryBindingSingleAt (input : List Char) : Option ((String × String) × List Char) := do
  let rest ← matchLit "match".data input
  let (addr, rest) ← matchQuotedAddr (skipSpaces rest)
  let rest ← matchSpacedLit "\x7b" rest
  let (v, rest) ← matchRun1 isWordCh (skipSpaces rest)
  let rest ← matchSpacedLit "=>" rest
  some ((String.mk addr, String.mk v), rest)

/-- `ADDRESS_BINDING_PATTERNS[1]` (rust_indexer.py line 48):
`name = "address"`; groups (name, address). -/
def tryBindingAssignAt (input : List Char) : Option ((String × String) × List Char) := do
  let (v, rest) ← matchRun1 isWordCh input
  let rest ← matchSpacedLit "=" rest
  let (addr, rest) ← matchQuotedAddr (skipSpaces rest)
  some ((String.mk v, String.mk addr), rest)

/-- `ADDRESS_BINDING_PATTERNS[2]` (rust_indexer.py line 50): a `match` triple
followed by a destructuring block; groups (fromAddr, toAddr, fromVar, toVar).
The amount and the third bound name are matched but not captured; the first
and third names directly follow their delimiters, with no space class in the
pattern there. -/
def tryBindingTripleAt (input : List Char) :
    Option ((String × String × String × String) × List Char) := do
  let ((a1, a2, _), rest) ← matchTripleHead input
  let rest ← matchSpacedLit "\x7b" rest
  let rest ← matchSpacedLit "(" rest
  let (v1, rest) ← matchRun1 isWordCh rest
  let rest ← matchSpacedLit "," rest
  let (v2, rest) ← matchRun1 isWordCh (skipSpaces rest)
  let rest ← matchSpacedLit "," rest
  let (_, rest) ← matchRun1 isWordCh (skipSpaces rest)
  let rest ← matchLit ")".data rest
  let rest ← matchSpacedLit "=>" rest
  some ((String.mk a1, String.mk a2, String.mk v1, String.mk v2), rest)

/-- `re.findall(DIRECT_TRANSFER_PATTERN, term)`. -/
def findallDirect (term : String) : List (String × String × String) :=
  scanAll tryDirectAt term.data.length term.data

/-- `re.findall(TRANSFER_PATTERNS[0], term)`. -/
def findallVaultLiteral (term : String) : List (String × String) :=
  scanAll tryVaultLiteralAt term.data.length term.data

/-- `re.findall(TRANSFER_PATTERNS[1], term)`. -/
def findallVaultVariable (term : String) : List (String × String) :=
  scanAll tryVaultVariableAt term.data.length term.data

/-- `re.findall(TRANSFER_PATTERNS[2], term)`. -/
def findallMatchTriple (term : String) : List (String × String × String) :=
  scanAll tryMatchTripleAt term.data.length term.data

/-- `re.findall(TRANSFER_PATTERNS[3], term)`. -/
def findallFindOrCreate (term : String) : List (String × String) :=
  scanAll tryFindOrCreateAt term.data.length term.data

/-- `re.findall(ADDRESS_BINDING_PATTERNS[0], term)`. -/
def findallBindingSingle (term : String) : List (String × String) :=
  scanAll tryBindingSingleAt term.data.length term.data

/-- `re.findall(ADDRESS_BINDING_PATTERNS[1], term)`. -/
def findallBindingAssign (term : String) : List (String × String) :=
  scanAll tryBindingAssignAt term.data.length term.data

/-- `re.findall(ADDRESS_BINDING_PATTERNS[2], term)`. -/
def findallBindingTriple (term : String) : List (String × String × String × String) :=
  scanAll tryBindingTripleAt term.data.length term.data

/-! ### Decimal and binary-float arithmetic

`_extract_transfers` divides with `decimal.Decimal`, the genesis code with
Python float division.  Both are modelled as rationals together with the
rounding the Python runtime performs. -/

/-- Decimal digit count of a nonnegative integer; fuel-structural (fuel `n`
always suffices) so that it evaluates inside the kernel. -/
def digitLenAux : ℕ → ℕ → ℕ
  | 0, _ => 1
  | fuel + 1, n => if n < 10 then 1 else digitLenAux fuel (n / 10) + 1

/-- Decimal digit count of a nonnegative integer. -/
def digitLen (n : ℕ) : ℕ := digitLenAux n n

/-- Round `a / b` (for `b > 0`) to the nearest integer, ties to even — the
ROUND_HALF_EVEN mode Python applies both in the default `decimal` context and
for binary float results. -/
def roundHalfEvenDiv (a b : ℕ) : ℕ :=
  let q := a / b
  let r := a % b
  if 2 * r < b then q
  else if b < 2 * r then q + 1
  else if q % 2 = 0 then q else q + 1

/-- `Decimal(a) / Decimal(100_000_000)` under the default decimal context
(precision 28 significant digits, ROUND_HALF_EVEN): the exact quotient has the
same significant digits as `a`, so it is returned exactly whenever
`a < 10^28`, and otherwise the digits beyond the first 28 are rounded away. -/
def decimalDiv8 (a : ℕ) : ℚ :=
  if a < 10 ^ 28 then (a : ℚ) / 10 ^ 8
  else
    ((roundHalfEvenDiv a (10 ^ (digitLen a - 28)) : ℕ) : ℚ) *
      (10 : ℚ) ^ (digitLen a - 28) / 10 ^ 8

/-- `2 ^ e` in `ℚ` for an integer exponent. -/
def pow2z (e : ℤ) : ℚ :=
  if 0 ≤ e then (2 : ℚ) ^ e.toNat else 1 / (2 : ℚ) ^ (-e).toNat

/-- Floor of the base-2 logarithm; fuel-structural (fuel `n` suffices). -/
def log2Aux : ℕ → ℕ → ℕ
  | 0, _ => 0
  | fuel + 1, n => if n ≤ 1 then 0 else log2Aux fuel (n / 2) + 1

/-- Floor of the base-2 logarithm of a positive integer. -/
def natLog2 (n : ℕ) : ℕ := log2Aux n n

/-- `⌊log2 (a / b)⌋` for positive integers: the difference of the integer
logarithms, corrected downwards by one when `a / b` falls below `2 ^
(log2 a - log2 b)`. -/
def ilog2Div (a b : ℕ) : ℤ :=
  let c : ℤ := (natLog2 a : ℤ) - (natLog2 b : ℤ)
  if 0 ≤ c then (if b * 2 ^ c.toNat ≤ a then c else c - 1)
  else (if b ≤ a * 2 ^ (-c).toNat then c else c - 1)

/-- Python float true division `a / b` of nonnegative integers: the exact
quotient correctly rounded to the IEEE-754 binary64 format (53-bit
significand, round to nearest, ties to even), modelled for the normal,
non-overflowing range — which covers every stake the genesis code divides by
`100_000_000`.  `b = 0` raises in Python and is never reached (the divisor is
the literal `100000000`). -/
def floatDiv (a b : ℕ) : ℚ :=
  if a = 0 ∨ b = 0 then 0
  else
    let e : ℤ := ilog2Div a b - 52
    let m : ℕ :=
      if 0 ≤ e then roundHalfEvenDiv a (b * 2 ^ e.toNat)
      else roundHalfEvenDiv (a * 2 ^ (-e).toNat) b
    (m : ℚ) * pow2z e

/-! ### The transfer extractor — `rust_indexer.py`, `_extract_transfers`
(lines 640-817) -/

/-- The fields of one `deploys` payload entry that `_extract_transfers` and
`_process_deployment_enhanced` read (restricted to the columns the store model
keeps).  Optional fields mirror `dict.get`; `errored` is read with a falsy
default. -/
structure DeployData where
  term : String
  sig : Option String
  deployer : Option String
  sender : Option String
  errored : Bool
  systemDeployError : Option String
  status : Option String
deriving Repr, DecidableEq

/-- `deploy_data.get("deployer", deploy_data.get("sender", ""))`. -/
def deployerOf (d : DeployData) : String := d.deployer.getD (d.sender.getD "")

/-- `"success" if not deploy_data.get("errored") else "failed"`. -/
def transferStatus (d : DeployData) : String :=
  if d.errored then "failed" else "success"

/-- Python dict assignment `bindings[k] = v` on an association list. -/
def dictInsert (dict : List (String × String)) (k v : String) : List (String × String) :=
  if dict.any (fun p => p.1 = k) then
    dict.map (fun p => if p.1 = k then (k, v) else p)
  else dict ++ [(k, v)]

/-- Python dict membership plus lookup (`k in bindings` / `bindings[k]`). -/
def dictGet (dict : List (String × String)) (k : String) : Option String :=
  (dict.find? (fun p => p.1 = k)).map (fun p => p.2)

/-- `x.startswith('1111') and len(x) in range(54, 57)`. -/
def isAddr54 (s : String) : Bool :=
  startsWith1111 s && decide (54 ≤ s.data.length) && decide (s.data.length ≤ 56)

/-- The two-group branch of the binding-collection loop (rust_indexer.py lines
708-715): whichever captured element looks like an address is bound to the
other. -/
def applyBindings2 :
    List (String × String) → List (String × String) → List (String × String)
  | dict, [] => dict
  | dict, (g1, g2) :: rest =>
    applyBindings2
      (if isAddr54 g1 then dictInsert dict g2 g1
       else if isAddr54 g2 then dictInsert dict g1 g2
       else dict) rest

/-- The four-group branch (rust_indexer.py lines 716-720): both variables are
bound when both captured addresses start with `1111` (this branch has no
length check). -/
def applyBindings4 :
    List (String × String) → List (String × String × String × String) →
      List (String × String)
  | dict, [] => dict
  | dict, (a1, a2, v1, v2) :: rest =>
    applyBindings4
      (if startsWith1111 a1 && startsWith1111 a2 then
        dictInsert (dictInsert dict v1 a1) v2 a2
       else dict) rest

/-- The `address_bindings` accumulation over the three binding patterns in
order (rust_indexer.py lines 698-722). -/
def addressBindings (term : String) : List (String × String) :=
  applyBindings4
    (applyBindings2 (applyBindings2 [] (findallBindingSingle term))
      (findallBindingAssign term))
    (findallBindingTriple term)

/-- The direct-pattern phase (rust_indexer.py lines 653-692): each
`DIRECT_TRANSFER_PATTERN` match whose two addresses start with `1111` and have
length 53 to 56 and whose amount is positive yields one Transfer with the
literal endpoints, the dust amount, and the Decimal quotient `dust / 10^8`. -/
def directTransfers (d : DeployData) (blockNumber : ℤ) : List TransferRow :=
  (findallDirect d.term).filterMap (fun m =>
    match m with
    | (fromA, toA, amountStr) =>
      if (startsWith1111 fromA && decide (53 ≤ fromA.data.length) &&
            decide (fromA.data.length ≤ 56)) &&
         (startsWith1111 toA && decide (53 ≤ toA.data.length) &&
            decide (toA.data.length ≤ 56)) then
        let amount := natOfDigits amountStr
        if 0 < amount then
          some ⟨d.sig, blockNumber, strTake fromA 150, strTake toA 150,
                (amount : ℤ), decimalDiv8 amount, transferStatus d⟩
        else none
      else none)

/-- The shared tail of the transfer-pattern loop (rust_indexer.py lines
771-800): drop empty or over-long addresses and non-positive amounts,
otherwise build the Transfer with addresses truncated to 150 characters. -/
def mkPatternTransfer (d : DeployData) (blockNumber : ℤ)
    (fromAddress toAddress amountStr : String) : Option TransferRow :=
  if fromAddress = "" ∨ toAddress = "" then none
  else if 150 < fromAddress.data.length ∨ 150 < toAddress.data.length then none
  else
    let amount := natOfDigits amountStr
    if 0 < amount then
      some ⟨d.sig, blockNumber, strTake fromAddress 150, strTake toAddress 150,
            (amount : ℤ), decimalDiv8 amount, transferStatus d⟩
    else none

/-- Recipient resolution (rust_indexer.py lines 739-747 and 762-767): the
bindings first, then the identifier itself when it is a 54-to-56 character
`1111` address, else nothing. -/
def resolveRecipient (bindings : List (String × String)) (ident : String) :
    Option String :=
  match dictGet bindings ident with
  | some a => some a
  | none => if isAddr54 ident then some ident else none

/-- Sender resolution of the three-group branch (rust_indexer.py lines
753-759): bindings, then the literal address, then the deployer. -/
def resolveSender (d : DeployData) (bindings : List (String × String))
    (ident : String) : String :=
  match dictGet bindings ident with
  | some a => a
  | none => if isAddr54 ident then ident else deployerOf d

/-- The two-group branch of the transfer-pattern loop (rust_indexer.py lines
734-747): the sender is the deployer; the record is dropped when the captured
recipient identifier does not resolve. -/
def resolve2 (d : DeployData) (bindings : List (String × String)) (blockNumber : ℤ)
    (m : String × String) : Option TransferRow :=
  match resolveRecipient bindings m.1 with
  | none => none
  | some toAddress => mkPatternTransfer d blockNumber (deployerOf d) toAddress m.2

/-- The three-group branch (rust_indexer.py lines 749-767). -/
def resolve3 (d : DeployData) (bindings : List (String × String)) (blockNumber : ℤ)
    (m : String × String × String) : Option TransferRow :=
  match resolveRecipient bindings m.2.1 with
  | none => none
  | some toAddress =>
    mkPatternTransfer d blockNumber (resolveSender d bindings m.1) toAddress m.2.2

/-- The `TRANSFER_PATTERNS` loop (rust_indexer.py lines 724-815): all four
patterns run and their records accumulate — the vault pattern with literal
recipient, the vault pattern with variable recipient, the literal match
triple, and `findOrCreate`. -/
def patternTransfers (d : DeployData) (bindings : List (String × String))
    (blockNumber : ℤ) : List TransferRow :=
  (findallVaultLiteral d.term).filterMap (resolve2 d bindings blockNumber) ++
  (findallVaultVariable d.term).filterMap (resolve2 d bindings blockNumber) ++
  (findallMatchTriple d.term).filterMap (resolve3 d bindings blockNumber) ++
  (findallFindOrCreate d.term).filterMap (resolve2 d bindings blockNumber)

/-- The gate of rust_indexer.py line 695: the pattern loop only runs when the
term mentions `ASIVault`, `transfer`, or (case-insensitively) `vault`. -/
def vaultGate (term : String) : Bool :=
  containsSub term "ASIVault" || containsSub term "transfer" ||
    containsSub (lowerStr term) "vault"

/-- `_extract_transfers` (rust_indexer.py lines 640-817): empty terms yield
nothing; the direct pattern is tried first and, when it produced records, they
are returned immediately; otherwise, behind the vault gate, the bindings are
collected and all four transfer patterns accumulate. -/
def extract_transfers (d : DeployData) (blockNumber : ℤ) : List TransferRow :=
  if d.term = "" then []
  else if (directTransfers d blockNumber).isEmpty then
    (if vaultGate d.term then patternTransfers d (addressBindings d.term) blockNumber
     else [])
  else directTransfers d blockNumber

/-- An empty term has no direct matches. -/
theorem directTransfers_empty_term (d : DeployData) (bn : ℤ) (h : d.term = "") :
    directTransfers d bn = [] := by
  have hd : d.term.data = [] := by rw [h]
  simp [directTransfers, findallDirect, hd, scanAll]

/-- Claim C3 as amended: the direct three-tuple pattern is tried first and,
whenever it yields any records, the extractor returns exactly those — no
later pattern contributes, so a term carrying both a direct three-tuple match
and a vault-variable transfer of the same payment yields one Transfer.  The
remaining shapes, however, do not return on first non-empty result: all of
them run and their records accumulate. -/
theorem extract_transfers_direct_first (d : DeployData) (bn : ℤ)
    (h : directTransfers d bn ≠ []) :
    extract_transfers d bn = directTransfers d bn := by
  have hterm : ¬ d.term = "" := fun ht => h (directTransfers_empty_term d bn ht)
  have hne : (directTransfers d bn).isEmpty = false := by
    cases hd : directTransfers d bn with
    | nil => exact absurd hd h
    | cons a l => rfl
  simp [extract_transfers, hterm, hne]

/-- Deployer address of the concrete extractor examples. -/
def exAddrDep : String := "1111ssssssssssssssssssssssssssssssssssssssssssssssssss"

/-- Recipient address of the concrete extractor examples. -/
def exAddrTo : String := "1111dddddddddddddddddddddddddddddddddddddddddddddddddd"

/-- `findOrCreate` address of the concrete extractor examples. -/
def exAddrFc : String := "1111cccccccccccccccccccccccccccccccccccccccccccccccccc"

/-- A term carrying a vault transfer with a literal recipient and a
`findOrCreate` allocation: two different recognized shapes. -/
def cexTermBoth : String :=
  "@vault!(\"transfer\", \"1111dddddddddddddddddddddddddddddddddddddddddddddddddd\", 500, Nil) ASIVault!(\"findOrCreate\", \"1111cccccccccccccccccccccccccccccccccccccccccccccccccc\", 700)"

/-- The deployment payload around `cexTermBoth`. -/
def cexDeployBoth : DeployData := ⟨cexTermBoth, some "sigC", some exAddrDep, none, false, none, none⟩

/-- Claim C3 counterexample: on a term where the vault shape (tried earlier)
already yields a record, the extractor still runs the later `findOrCreate`
shape and returns two Transfers — it does not return on the first non-empty
result, so a term with two shapes of the same or different payments is
double-counted rather than yielding exactly one record. -/
theorem extractor_patterns_accumulate_counterexample :
    extract_transfers cexDeployBoth 7 =
      [⟨some "sigC", 7, exAddrDep, exAddrTo, 500, decimalDiv8 500, "success"⟩,
       ⟨some "sigC", 7, exAddrDep, exAddrFc, 700, decimalDiv8 700, "success"⟩] ∧
    (findallVaultLiteral cexTermBoth).length = 1 ∧
    (findallFindOrCreate cexTermBoth).length = 1 :=
  ⟨rfl, rfl, rfl⟩

/-- The scenario-3 term of the specification: a direct three-tuple match plus
a vault-variable transfer of the same payment, with the variable bound to the
second address. -/
def ex3Term : String :=
  "match (\"1111ssssssssssssssssssssssssssssssssssssssssssssssssss\", \"1111dddddddddddddddddddddddddddddddddddddddddddddddddd\", 100000000) toV = \"1111dddddddddddddddddddddddddddddddddddddddddddddddddd\" @vault!(\"transfer\", toV, 100000000, Nil)"

/-- The deployment payload around `ex3Term`. -/
def ex3Deploy : DeployData := ⟨ex3Term, some "sig3", some exAddrDep, none, false, none, none⟩

/-- Witness for the amended C3 at the scenario-3 term: the direct pattern
fires, the extractor returns its single record, and the vault-variable shape
of the same payment contributes nothing. -/
theorem extract_transfers_direct_first_witness :
    extract_transfers ex3Deploy 5 = directTransfers ex3Deploy 5 ∧
    directTransfers ex3Deploy 5 =
      [⟨some "sig3", 5, exAddrDep, exAddrTo, 100000000,
        decimalDiv8 100000000, "success"⟩] := by
  have hd : directTransfers ex3Deploy 5 =
      [⟨some "sig3", 5, exAddrDep, exAddrTo, 100000000,
        decimalDiv8 100000000, "success"⟩] := rfl
  refine ⟨extract_transfers_direct_first ex3Deploy 5 ?_, hd⟩
  rw [hd]
  simp

/-! ### Block processing — `rust_indexer.py`, `_process_block` (lines 226-328),
`_process_deployment_enhanced` (lines 330-399) and the genesis path
(lines 819-1141) -/

/-- One entry of `blockInfo.justifications`; only the `validator` key is
read. -/
structure Justification where
  validator : String
deriving Repr, DecidableEq

/-- The fields of the `blockInfo` part of a full block payload that
`_process_block` reads into the modelled columns. -/
structure BlockInfo where
  blockHash : Option String
  blockNumber : Option ℤ
  parentsHashList : List String
  timestamp : Option ℤ
  sender : Option String
  bonds : List BondEntry
  justifications : List Justification
deriving Repr, DecidableEq

/-- A full `get_block_details` payload: `blockInfo` plus `deploys`. -/
structure BlockPayload where
  blockInfo : BlockInfo
  deploys : List DeployData
deriving Repr, DecidableEq

/-- The `deployInfo`-derived update of `_process_deployment_enhanced`
(rust_indexer.py lines 336-359), restricted to the keys the store model
keeps. -/
structure EnrichedDeploy where
  sender : Option String
  sig : Option String
  status : Option String
deriving Repr, DecidableEq

/-- `deploy_data.update(...)` of rust_indexer.py lines 345-359: `none` for the
whole record covers the exception path, a falsy response and a falsy
`deployInfo`.  The updated `sender` defaults to the current `deployer`, the
updated `sig` to the current `sig`, and `status` to `"included"`. -/
def applyEnrichment (e : Option EnrichedDeploy) (dd : DeployData) : DeployData :=
  match e with
  | none => dd
  | some e =>
    { dd with
      sender := (match e.sender with | some v => some v | none => dd.deployer),
      sig := (match e.sig with | some v => some v | none => dd.sig),
      status := some (e.status.getD "included") }

/-- `RustBlockIndexer.classify_deployment` (rust_indexer.py lines 53-67):
ordered substring rules over the Rholang term. -/
def classify_deployment (term : String) : String :=
  if containsSub term "ASIVault" && containsSub term "transfer" then "asi_transfer"
  else if containsSub term "validator" || containsSub term "bond" then "validator_operation"
  else if containsSub term "finalizer" then "finalizer_contract"
  else if containsSub term "registry" && containsSub term "lookup" then "registry_lookup"
  else if containsSub term "auction" then "auction_contract"
  else "smart_contract"

/-- `_process_deployment_enhanced` (rust_indexer.py lines 330-399): skip when
the signature is falsy, enrich via `get_deploy_info` (outcome given by
`enrich`), derive the errored flag from the `systemDeployError` message, add
the Deployment row, and, when extraction is enabled, the extracted
Transfers (whose own status uses only the original `errored` value). -/
def processDeployment (enrich : String → Option EnrichedDeploy) (extractEnabled : Bool)
    (blockHash : String) (blockNumber : ℤ) (dd : DeployData) (s : Store) : Store :=
  if dd.sig.getD "" = "" then s
  else
    let dd := applyEnrichment (enrich (dd.sig.getD "")) dd
    let errMsg := match dd.systemDeployError with | some "" => none | e => e
    let row : DeploymentRow :=
      ⟨dd.sig.getD "", blockHash, blockNumber, deployerOf dd,
       dd.errored || errMsg.isSome, classify_deployment dd.term,
       dd.status.getD "included"⟩
    let s := { s with deployments := s.deployments ++ [row] }
    if extractEnabled then
      { s with transfers := s.transfers ++ extract_transfers dd blockNumber }
    else s

/-- `_process_validators` (rust_indexer.py lines 605-638): for each bond of the
block, the GREATEST upsert on `validators` plus a ValidatorBond row. -/
def processValidatorsBonds (bonds : List BondEntry) (blockHash : String)
    (blockNumber : ℤ) (s : Store) : Store :=
  bonds.foldl (fun s bond =>
    { s with
      validators := upsertValidatorGreatest s.validators bond blockNumber,
      validator_bonds := s.validator_bonds ++
        [⟨blockHash, blockNumber, bond.validator, bond.stake⟩] }) s

/-- The genesis cache payload (`_genesis_data_cache`): allocation and bond
triples of address, dust amount, and the Python-float token amount. -/
structure GenesisData where
  allocations : List (String × ℤ × ℚ)
  bonds : List (String × ℤ × ℚ)
deriving Repr, DecidableEq

/-- `_extract_genesis_from_state` (rust_indexer.py lines 896-999) in the only
configuration `_process_block` reaches: the genesis `block_info` always
carries a `bonds` key (line 290 sets it), so the bonds come from the payload —
each entry with a truthy validator key and positive stake — while the
allocations list is never populated (the CLI fallback of lines 929-984 is
unreachable from `_process_block`).  The token amount is `stake / 100000000`
in Python float arithmetic. -/
def extractGenesisFromState (bonds : List BondEntry) : GenesisData :=
  ⟨[],
   (bonds.filter (fun b => b.validator ≠ "" && decide (0 < b.stake))).map
     (fun b => (b.validator, b.stake, floatDiv b.stake.toNat 100000000))⟩

/-- `_extract_genesis_data` (rust_indexer.py lines 819-830): return the cache
when set, otherwise delegate to `_extract_genesis_from_state` — the code after
that `return` is unreachable — which caches its result. -/
def extractGenesisData (cache : Option GenesisData) (bonds : List BondEntry) :
    GenesisData × Option GenesisData :=
  match cache with
  | some g => (g, some g)
  | none =>
    let g := extractGenesisFromState bonds
    (g, some g)

/-- The genesis-mint source address used by `_process_genesis_transfers`. -/
def genesisZeroAddress : String :=
  "0000000000000000000000000000000000000000000000000000000000000000"

/-- The PoS contract address genesis bonds are paid into. -/
def posVaultAddress : String := "1111gW5kkGxHg7xDg6dRkZx2f7qxTizJzaCH9VEM1oJKWRvSX9Sk5"

/-- The `genesis_allocation_i` Deployment row (rust_indexer.py lines
1016-1032). -/
def genesisAllocDeploy (bh : String) (i : ℕ) (_a : String × ℤ × ℚ) : DeploymentRow :=
  ⟨"genesis_allocation_" ++ Nat.repr i, bh, 0, genesisZeroAddress, false,
   "genesis_mint", "included"⟩

/-- The `genesis_allocation_i` Transfer row (rust_indexer.py lines
1034-1044). -/
def genesisAllocTransfer (i : ℕ) (a : String × ℤ × ℚ) : TransferRow :=
  ⟨some ("genesis_allocation_" ++ Nat.repr i), 0, genesisZeroAddress, a.1,
   a.2.1, a.2.2, "genesis_mint"⟩

/-- The `genesis_bond_i` Deployment row (rust_indexer.py lines 1050-1066). -/
def genesisBondDeploy (bh : String) (i : ℕ) (b : String × ℤ × ℚ) : DeploymentRow :=
  ⟨"genesis_bond_" ++ Nat.repr i, bh, 0, b.1, false, "genesis_bond", "included"⟩

/-- The `genesis_bond_i` Transfer row (rust_indexer.py lines 1068-1078):
validator to PoS vault. -/
def genesisBondTransfer (i : ℕ) (b : String × ℤ × ℚ) : TransferRow :=
  ⟨some ("genesis_bond_" ++ Nat.repr i), 0, b.1, posVaultAddress, b.2.1, b.2.2,
   "genesis_bond"⟩

/-- The Deployment rows `_process_genesis_transfers` adds, indexed from 1 by
`enumerate(..., 1)`. -/
def genesisDeployRows (bh : String) (gd : GenesisData) : List DeploymentRow :=
  (List.enumFrom 1 gd.allocations).map (fun p => genesisAllocDeploy bh p.1 p.2) ++
    (List.enumFrom 1 gd.bonds).map (fun p => genesisBondDeploy bh p.1 p.2)

/-- The Transfer rows `_process_genesis_transfers` adds. -/
def genesisTransferRows (gd : GenesisData) : List TransferRow :=
  (List.enumFrom 1 gd.allocations).map (fun p => genesisAllocTransfer p.1 p.2) ++
    (List.enumFrom 1 gd.bonds).map (fun p => genesisBondTransfer p.1 p.2)

/-- `_process_genesis_transfers` (rust_indexer.py lines 1001-1083) on the
already-extracted genesis data. -/
def processGenesisTransfers (bh : String) (gd : GenesisData) (s : Store) : Store :=
  { s with
    deployments := s.deployments ++ genesisDeployRows bh gd,
    transfers := s.transfers ++ genesisTransferRows gd }

/-- Round a nonnegative rational to IEEE-754 binary64 (normal range), ties to
even — the rounding of each Python float addition. -/
def roundB64Pos (q : ℚ) : ℚ :=
  if q = 0 then 0
  else
    let e : ℤ := ilog2Div q.num.toNat q.den - 52
    if 0 ≤ e then
      ((roundHalfEvenDiv q.num.toNat (q.den * 2 ^ e.toNat) : ℕ) : ℚ) * pow2z e
    else
      ((roundHalfEvenDiv (q.num.toNat * 2 ^ (-e).toNat) q.den : ℕ) : ℚ) * pow2z e

/-- Python `sum(...)` over nonnegative floats: a left fold of correctly
rounded additions starting from 0. -/
def floatSumPos (l : List ℚ) : ℚ := l.foldl (fun x y => roundB64Pos (x + y)) 0

/-- `_process_genesis_balance_states` (rust_indexer.py lines 1085-1141):
allocations fully unbonded, validators fully bonded, and one PoS-vault row
holding the summed bonds (dust summed exactly, token amounts summed in float
arithmetic). -/
def processGenesisBalanceStates (gd : GenesisData) (s : Store) : Store :=
  { s with
    balance_states := s.balance_states ++
      gd.allocations.map (fun a => ⟨a.1, 0, a.2.1, a.2.2, 0, 0⟩) ++
      gd.bonds.map (fun b => ⟨b.1, 0, 0, 0, b.2.1, b.2.2⟩) ++
      [⟨posVaultAddress, 0, 0, 0, (gd.bonds.map (fun b => b.2.1)).sum,
        floatSumPos (gd.bonds.map (fun b => b.2.2))⟩] }

/-- The post-commit `block_validators` insertion (rust_indexer.py lines
296-310): one row per truthy justification validator, `ON CONFLICT DO
NOTHING` on the `(block_hash, validator_public_key)` primary key. -/
def insertBlockValidators (justifications : List Justification) (blockHash : String)
    (s : Store) : Store :=
  justifications.foldl (fun s j =>
    if j.validator = "" then s
    else if s.block_validators.any (fun bv =>
        decide (bv.block_hash = blockHash) && decide (bv.validator_public_key = j.validator)) then s
    else { s with block_validators := s.block_validators ++ [⟨blockHash, j.validator⟩] }) s

/-- The body of `_process_block` after the identity checks: insert the Block
row, process bonds, process deployments, run the genesis bootstrap for block
0, commit, then insert the block-validator junctions. -/
def processBlockMain (enrich : String → Option EnrichedDeploy) (extractEnabled : Bool)
    (payload : BlockPayload) (blockNumber : ℤ) (blockHash : String) (s : Store)
    (cache : Option GenesisData) : Store × Option GenesisData :=
  let bi := payload.blockInfo
  let parentHash := match bi.parentsHashList with | [] => "" | h :: _ => h
  let block : BlockRow :=
    ⟨blockNumber, blockHash, parentHash, bi.timestamp.getD 0, bi.sender.getD "",
     payload.deploys.length⟩
  let s := { s with blocks := s.blocks ++ [block] }
  let s := processValidatorsBonds bi.bonds blockHash blockNumber s
  let s := payload.deploys.foldl
    (fun s dd => processDeployment enrich extractEnabled blockHash blockNumber dd s) s
  let sc :=
    if blockNumber = 0 then
      let gc := extractGenesisData cache bi.bonds
      let s := processGenesisTransfers blockHash gc.1 s
      let gc2 := extractGenesisData gc.2 bi.bonds
      (processGenesisBalanceStates gc2.1 s, gc2.2)
    else (s, cache)
  (insertBlockValidators bi.justifications blockHash sc.1, sc.2)

/-- `_process_block` (rust_indexer.py lines 226-328): drop payloads with a
falsy hash or missing number, return without writes when the hash is already
stored, otherwise run the transactional body.  `enrich` gives the
`get_deploy_info` outcome per deploy id and `extractEnabled` is
`settings.enable_rev_transfer_extraction`; `cache` is the in-memory
`_genesis_data_cache` threaded alongside the store. -/
def processBlock (enrich : String → Option EnrichedDeploy) (extractEnabled : Bool)
    (payload : BlockPayload) (s : Store) (cache : Option GenesisData) :
    Store × Option GenesisData :=
  match payload.blockInfo.blockNumber with
  | none => (s, cache)
  | some blockNumber =>
    if payload.blockInfo.blockHash.getD "" = "" then (s, cache)
    else if s.blocks.any (fun b => b.block_hash = payload.blockInfo.blockHash.getD "") then
      (s, cache)
    else
      processBlockMain enrich extractEnabled payload blockNumber
        (payload.blockInfo.blockHash.getD "") s cache

/-- The Block row `_process_block` inserts. -/
def blockRowOf (payload : BlockPayload) (bn : ℤ) (bh : String) : BlockRow :=
  ⟨bn, bh,
   (match payload.blockInfo.parentsHashList with | [] => "" | h :: _ => h),
   payload.blockInfo.timestamp.getD 0, payload.blockInfo.sender.getD "",
   payload.deploys.length⟩

/-- A fold whose step leaves the `blocks` table unchanged leaves it
unchanged. -/
theorem foldl_blocks_eq {β : Type} (f : Store → β → Store)
    (hf : ∀ s b, (f s b).blocks = s.blocks) :
    ∀ (l : List β) (s : Store), (l.foldl f s).blocks = s.blocks := by
  intro l
  induction l with
  | nil => intro s; rfl
  | cons b rest ih => intro s; rw [List.foldl_cons, ih, hf]

/-- Bond processing does not touch the `blocks` table. -/
theorem processValidatorsBonds_blocks (bonds : List BondEntry) (bh : String) (bn : ℤ)
    (s : Store) : (processValidatorsBonds bonds bh bn s).blocks = s.blocks := by
  unfold processValidatorsBonds
  apply foldl_blocks_eq
  intro s b
  rfl

/-- Deployment processing does not touch the `blocks` table. -/
theorem processDeployment_blocks (enrich : String → Option EnrichedDeploy)
    (x : Bool) (bh : String) (bn : ℤ) (dd : DeployData) (s : Store) :
    (processDeployment enrich x bh bn dd s).blocks = s.blocks := by
  unfold processDeployment
  split
  · rfl
  · split <;> rfl

/-- The junction insertion does not touch the `blocks` table. -/
theorem insertBlockValidators_blocks (js : List Justification) (bh : String) (s : Store) :
    (insertBlockValidators js bh s).blocks = s.blocks := by
  refine foldl_blocks_eq _ (fun s j => ?_) js s
  dsimp only
  split
  · rfl
  · split <;> rfl

/-- `_process_block` adds exactly the one Block row to the `blocks` table. -/
theorem processBlockMain_blocks (e : String → Option EnrichedDeploy) (x : Bool)
    (p : BlockPayload) (bn : ℤ) (bh : String) (s : Store) (c : Option GenesisData) :
    ((processBlockMain e x p bn bh s c).1).blocks = s.blocks ++ [blockRowOf p bn bh] := by
  unfold processBlockMain
  rw [insertBlockValidators_blocks]
  split
  · dsimp only [processGenesisBalanceStates, processGenesisTransfers]
    rw [foldl_blocks_eq _ (fun s dd => processDeployment_blocks e x bh bn dd s),
      processValidatorsBonds_blocks]
    rfl
  · dsimp only
    rw [foldl_blocks_eq _ (fun s dd => processDeployment_blocks e x bh bn dd s),
      processValidatorsBonds_blocks]
    rfl

/-- `_process_block` with a missing block number is a no-op. -/
theorem processBlock_none (e : String → Option EnrichedDeploy) (x : Bool)
    (p : BlockPayload) (s : Store) (c : Option GenesisData)
    (hn : p.blockInfo.blockNumber = none) : processBlock e x p s c = (s, c) := by
  unfold processBlock
  rw [hn]

/-- `_process_block` with a falsy block hash is a no-op. -/
theorem processBlock_emptyHash (e : String → Option EnrichedDeploy) (x : Bool)
    (p : BlockPayload) (s : Store) (c : Option GenesisData)
    (hh : p.blockInfo.blockHash.getD "" = "") : processBlock e x p s c = (s, c) := by
  unfold processBlock
  cases p.blockInfo.blockNumber with
  | none => rfl
  | some bn => simp [hh]

/-- `_process_block` on an already-stored hash performs no writes. -/
theorem processBlock_exists (e : String → Option EnrichedDeploy) (x : Bool)
    (p : BlockPayload) (s : Store) (c : Option GenesisData)
    (hex : (s.blocks.any fun b => b.block_hash = p.blockInfo.blockHash.getD "") = true) :
    processBlock e x p s c = (s, c) := by
  unfold processBlock
  cases p.blockInfo.blockNumber with
  | none => rfl
  | some bn =>
    by_cases hh : p.blockInfo.blockHash.getD "" = ""
    · simp [hh]
    · simp [hh, hex]

/-- `_process_block` on a fresh payload runs the transactional body. -/
theorem processBlock_main (e : String → Option EnrichedDeploy) (x : Bool)
    (p : BlockPayload) (s : Store) (c : Option GenesisData) (bn : ℤ)
    (hn : p.blockInfo.blockNumber = some bn)
    (hh : ¬ p.blockInfo.blockHash.getD "" = "")
    (hex : (s.blocks.any fun b => b.block_hash = p.blockInfo.blockHash.getD "") = false) :
    processBlock e x p s c =
      processBlockMain e x p bn (p.blockInfo.blockHash.getD "") s c := by
  unfold processBlock
  rw [hn]
  simp [hh, hex]

/-- Claim C6: block processing is idempotent on `block_hash` — a payload whose
hash already exists in the store is dropped before any write, so processing
the same payload twice produces exactly the state of processing it once, for
any `get_deploy_info` outcomes, extraction setting, store and genesis
cache. -/
theorem process_block_idempotent (e : String → Option EnrichedDeploy) (x : Bool)
    (p : BlockPayload) (s : Store) (c : Option GenesisData) :
    processBlock e x p (processBlock e x p s c).1 (processBlock e x p s c).2 =
      processBlock e x p s c := by
  rcases hn : p.blockInfo.blockNumber with _ | bn
  · rw [processBlock_none e x p s c hn]
    exact processBlock_none e x p s c hn
  · by_cases hh : p.blockInfo.blockHash.getD "" = ""
    · rw [processBlock_emptyHash e x p s c hh]
      exact processBlock_emptyHash e x p s c hh
    · by_cases hex : (s.blocks.any fun b => b.block_hash = p.blockInfo.blockHash.getD "") = true
      · rw [processBlock_exists e x p s c hex]
        exact processBlock_exists e x p s c hex
      · have hex' : (s.blocks.any fun b => b.block_hash = p.blockInfo.blockHash.getD "") =
            false := by
          exact Bool.not_eq_true _ ▸ Bool.of_not_eq_true hex
        rw [processBlock_main e x p s c bn hn hh hex']
        have hmem : (((processBlockMain e x p bn (p.blockInfo.blockHash.getD "") s c).1).blocks.any
            fun b => b.block_hash = p.blockInfo.blockHash.getD "") = true := by
          rw [processBlockMain_blocks]
          simp [blockRowOf]
        rw [processBlock_exists e x p _ _ hmem]

/-- The Decimal quotient is exact below the 28-digit context bound. -/
theorem decimalDiv8_exact (a : ℕ) (h : a < 10 ^ 28) :
    decimalDiv8 a * 10 ^ 8 = (a : ℚ) := by
  unfold decimalDiv8
  rw [if_pos h]
  field_simp

/-- Every Transfer the shared pattern tail emits has a positive dust amount
and the Decimal token amount. -/
theorem mkPatternTransfer_spec (d : DeployData) (bn : ℤ) (fA tA aStr : String)
    (t : TransferRow) (h : mkPatternTransfer d bn fA tA aStr = some t) :
    0 < t.amount_dust ∧ t.amount_asi = decimalDiv8 t.amount_dust.toNat := by
  unfold mkPatternTransfer at h
  split_ifs at h with h1 h2
  simp at h
  obtain ⟨h3, h4⟩ := h
  subst h4
  refine ⟨?_, ?_⟩
  · show (0 : ℤ) < ((natOfDigits aStr : ℕ) : ℤ)
    exact_mod_cast h3
  · show decimalDiv8 (natOfDigits aStr) =
      decimalDiv8 ((natOfDigits aStr : ℕ) : ℤ).toNat
    simp

/-- `resolve2` only emits through `mkPatternTransfer`. -/
theorem resolve2_spec (d : DeployData) (bindings : List (String × String)) (bn : ℤ)
    (m : String × String) (t : TransferRow) (h : resolve2 d bindings bn m = some t) :
    0 < t.amount_dust ∧ t.amount_asi = decimalDiv8 t.amount_dust.toNat := by
  unfold resolve2 at h
  rcases hres : resolveRecipient bindings m.1 with _ | toA
  · rw [hres] at h
    simp at h
  · rw [hres] at h
    exact mkPatternTransfer_spec _ _ _ _ _ _ h

/-- `resolve3` only emits through `mkPatternTransfer`. -/
theorem resolve3_spec (d : DeployData) (bindings : List (String × String)) (bn : ℤ)
    (m : String × String × String) (t : TransferRow)
    (h : resolve3 d bindings bn m = some t) :
    0 < t.amount_dust ∧ t.amount_asi = decimalDiv8 t.amount_dust.toNat := by
  unfold resolve3 at h
  rcases hres : resolveRecipient bindings m.2.1 with _ | toA
  · rw [hres] at h
    simp at h
  · rw [hres] at h
    exact mkPatternTransfer_spec _ _ _ _ _ _ h

/-- Every Transfer of the direct phase has a positive dust amount and the
Decimal token amount. -/
theorem directTransfers_spec (d : DeployData) (bn : ℤ) (t : TransferRow)
    (h : t ∈ directTransfers d bn) :
    0 < t.amount_dust ∧ t.amount_asi = decimalDiv8 t.amount_dust.toNat := by
  unfold directTransfers at h
  rw [List.mem_filterMap] at h
  obtain ⟨m, _, hm⟩ := h
  obtain ⟨fromA, toA, amountStr⟩ := m
  dsimp only at hm
  split_ifs at hm with h1 h2
  injection hm with h3
  subst h3
  refine ⟨?_, ?_⟩
  · show (0 : ℤ) < ((natOfDigits amountStr : ℕ) : ℤ)
    exact_mod_cast h2
  · show decimalDiv8 (natOfDigits amountStr) =
      decimalDiv8 ((natOfDigits amountStr : ℕ) : ℤ).toNat
    simp

/-- Every Transfer of the pattern loop has a positive dust amount and the
Decimal token amount. -/
theorem patternTransfers_spec (d : DeployData) (bindings : List (String × String))
    (bn : ℤ) (t : TransferRow) (h : t ∈ patternTransfers d bindings bn) :
    0 < t.amount_dust ∧ t.amount_asi = decimalDiv8 t.amount_dust.toNat := by
  unfold patternTransfers at h
  rcases List.mem_append.mp h with h' | h'
  · rcases List.mem_append.mp h' with h'' | h''
    · rcases List.mem_append.mp h'' with h3 | h3
      · obtain ⟨m, _, hm⟩ := List.mem_filterMap.mp h3
        exact resolve2_spec _ _ _ _ _ hm
      · obtain ⟨m, _, hm⟩ := List.mem_filterMap.mp h3
        exact resolve2_spec _ _ _ _ _ hm
    · obtain ⟨m, _, hm⟩ := List.mem_filterMap.mp h''
      exact resolve3_spec _ _ _ _ _ hm
  · obtain ⟨m, _, hm⟩ := List.mem_filterMap.mp h'
    exact resolve2_spec _ _ _ _ _ hm

/-- Every Transfer the extractor returns has a positive dust amount and the
Decimal token amount. -/
theorem extract_transfers_spec (d : DeployData) (bn : ℤ) (t : TransferRow)
    (h : t ∈ extract_transfers d bn) :
    0 < t.amount_dust ∧ t.amount_asi = decimalDiv8 t.amount_dust.toNat := by
  unfold extract_transfers at h
  split_ifs at h with h1 h2 h3
  · simp at h
  · exact patternTransfers_spec _ _ _ _ h
  · simp at h
  · exact directTransfers_spec _ _ _ h

/-- Every genesis-synthesized Transfer carries a positive stake as its dust
amount and the float quotient as its token amount (the allocations list is
never populated). -/
theorem genesisTransferRows_spec (bonds : List BondEntry) (t : TransferRow)
    (h : t ∈ genesisTransferRows (extractGenesisFromState bonds)) :
    0 < t.amount_dust ∧ t.amount_asi = floatDiv t.amount_dust.toNat 100000000 := by
  unfold genesisTransferRows extractGenesisFromState at h
  simp only [List.enumFrom_nil, List.map_nil, List.nil_append, List.mem_map] at h
  obtain ⟨p, hp, rfl⟩ := h
  obtain ⟨i, trip⟩ := p
  have htrip : trip ∈ (bonds.filter (fun b => b.validator ≠ "" && decide (0 < b.stake))).map
      (fun b => (b.validator, b.stake, floatDiv b.stake.toNat 100000000)) := by
    have h3 := List.mem_enumFrom hp
    rw [h3.2.2]
    exact List.getElem_mem _
  obtain ⟨b, hb, rfl⟩ := List.mem_map.mp htrip
  have hstake : 0 < b.stake := by
    have := (List.mem_filter.mp hb).2
    simp only [Bool.and_eq_true, decide_eq_true_eq] at this
    exact this.2
  exact ⟨hstake, rfl⟩

/-- Claim C4 as amended: every pattern-extracted Transfer has
`amount_dust > 0` and its `amount_token` is the Decimal quotient
`amount_dust / 10^8`, so `amount_token × 10^8 = amount_dust` holds exactly
whenever `amount_dust` stays below the 28-significant-digit Decimal context
bound `10^28`; every genesis-synthesized Transfer has `amount_dust > 0`, but
its `amount_token` is computed by Python binary float division of the stake by
`10^8`, which is not exact in general. -/
theorem transfer_amounts (d : DeployData) (bn : ℤ) (bonds : List BondEntry) :
    (∀ t, t ∈ extract_transfers d bn →
      0 < t.amount_dust ∧ t.amount_asi = decimalDiv8 t.amount_dust.toNat ∧
        (t.amount_dust < 10 ^ 28 → t.amount_asi * 10 ^ 8 = (t.amount_dust : ℚ))) ∧
    (∀ t, t ∈ genesisTransferRows (extractGenesisFromState bonds) →
      0 < t.amount_dust ∧ t.amount_asi = floatDiv t.amount_dust.toNat 100000000) := by
  constructor
  · intro t ht
    obtain ⟨h1, h2⟩ := extract_transfers_spec d bn t ht
    refine ⟨h1, h2, fun hlt => ?_⟩
    rw [h2, decimalDiv8_exact _ (by omega)]
    exact_mod_cast Int.toNat_of_nonneg h1.le
  · exact genesisTransferRows_spec bonds

/-- A genesis payload whose single bond has stake `10^17 + 1` dust. -/
def cexGenesisPayload : BlockPayload :=
  ⟨⟨some "h0", some 0, [], some 0, some "prop", [⟨"valX", 10 ^ 17 + 1⟩], []⟩, []⟩

/-- The empty store. -/
def emptyStore : Store := ⟨[], [], [], [], [], [], [], [], []⟩

/-- A direct-transfer term whose amount has 29 digits. -/
def cexBigTerm : String :=
  "match (\"1111ssssssssssssssssssssssssssssssssssssssssssssssssss\", \"1111dddddddddddddddddddddddddddddddddddddddddddddddddd\", 10000000000000000000000000001)"

/-- The deployment payload around `cexBigTerm`. -/
def cexBigDeploy : DeployData := ⟨cexBigTerm, some "sigB", none, none, false, none, none⟩

/-- Claim C4 counterexample: processing a genesis block whose bond stake is
`10^17 + 1` dust creates a Transfer with `amount_dust = 10^17 + 1` whose float
token amount is exactly `10^9` — so `amount_token × 10^8 = 10^17`, off by one
dust — and a pattern-extracted Transfer with the 29-digit amount
`10^28 + 1` gets a Decimal token amount rounded to 28 significant digits, for
which `amount_token × 10^8 = 10^28 ≠ 10^28 + 1`. -/
theorem transfer_units_counterexample :
    (processBlock (fun _ => none) true cexGenesisPayload emptyStore none).1.transfers =
      [⟨some "genesis_bond_1", 0, "valX", posVaultAddress, 10 ^ 17 + 1,
        floatDiv (10 ^ 17 + 1) 100000000, "genesis_bond"⟩] ∧
    floatDiv (10 ^ 17 + 1) 100000000 * 10 ^ 8 ≠ ((10 ^ 17 + 1 : ℕ) : ℚ) ∧
    (extract_transfers cexBigDeploy 3).map (fun t => (t.amount_dust, t.amount_asi)) =
      [((10 ^ 28 + 1 : ℤ), decimalDiv8 (10 ^ 28 + 1))] ∧
    decimalDiv8 (10 ^ 28 + 1) * 10 ^ 8 ≠ ((10 ^ 28 + 1 : ℕ) : ℚ) := by
  refine ⟨rfl, ?_, rfl, ?_⟩
  · have h1 : floatDiv (10 ^ 17 + 1) 100000000 =
        ((8388608000000000 : ℕ) : ℚ) * pow2z (-23) := rfl
    have h2 : pow2z (-23) = 1 / (2 : ℚ) ^ (23 : ℕ) := rfl
    rw [h1, h2]
    push_cast
    norm_num
  · have h1 : decimalDiv8 (10 ^ 28 + 1) =
        ((1000000000000000000000000000 : ℕ) : ℚ) * (10 : ℚ) ^ (1 : ℕ) / 10 ^ 8 := rfl
    rw [h1]
    push_cast
    norm_num

/-- The Transfer the scenario-3 term extracts. -/
def exTransfer : TransferRow :=
  ⟨some "sig3", 5, exAddrDep, exAddrTo, 100000000, decimalDiv8 100000000, "success"⟩

/-- The genesis bond of the counterexample payload. -/
def cexBond17 : BondEntry := ⟨"valX", 10 ^ 17 + 1⟩

/-- The genesis Transfer synthesized for `cexBond17`. -/
def genTransfer17 : TransferRow :=
  genesisBondTransfer 1 ("valX", 10 ^ 17 + 1, floatDiv (10 ^ 17 + 1) 100000000)

/-- Witness for the amended C4 at a concrete extracted Transfer (exact below
the Decimal bound) and a concrete genesis Transfer. -/
theorem transfer_amounts_witness :
    (0 < exTransfer.amount_dust ∧
      exTransfer.amount_asi * 10 ^ 8 = (exTransfer.amount_dust : ℚ)) ∧
    (0 < genTransfer17.amount_dust ∧
      genTransfer17.amount_asi = floatDiv genTransfer17.amount_dust.toNat 100000000) := by
  have hmem1 : exTransfer ∈ extract_transfers ex3Deploy 5 := by
    rw [show extract_transfers ex3Deploy 5 = [exTransfer] from rfl]
    exact List.mem_singleton_self _
  have hmem2 : genTransfer17 ∈ genesisTransferRows (extractGenesisFromState [cexBond17]) := by
    rw [show genesisTransferRows (extractGenesisFromState [cexBond17]) = [genTransfer17]
      from rfl]
    exact List.mem_singleton_self _
  have h1 := (transfer_amounts ex3Deploy 5 [cexBond17]).1 exTransfer hmem1
  have h2 := (transfer_amounts ex3Deploy 5 [cexBond17]).2 genTransfer17 hmem2
  exact ⟨⟨h1.1, h1.2.2 (by norm_num [exTransfer])⟩, h2⟩

/-! ### CLI gateway — `rust_cli_client.py`, `RustCLIClient` -/

/-- The outcome of one `node_cli` subprocess invocation: it completes with a
return code and captured streams, or `asyncio.wait_for` times out. -/
inductive CmdOutcome where
  | completed (returncode : ℤ) (stdout stderr : String)
  | timedOut
deriving Repr, DecidableEq

/-- The Python exceptions the gateway code can raise. -/
inductive PyError where
  | runtimeError (msg : String)
  | timeoutError
  | valueError (msg : String)
deriving Repr, DecidableEq

/-- `RustCLIClient._run_command` (rust_cli_client.py lines 46-86): a non-zero
exit raises `RuntimeError("CLI command failed: ...")`, a timeout re-raises
`asyncio.TimeoutError`; otherwise the decoded streams are returned. -/
def runCommand : CmdOutcome → Except PyError (String × String)
  | CmdOutcome.completed rc out err =>
    if rc ≠ 0 then Except.error (PyError.runtimeError ("CLI command failed: " ++ err))
    else Except.ok (out, err)
  | CmdOutcome.timedOut => Except.error PyError.timeoutError

/-- A JSON value, for the subset of JSON the CLI emits that
`_parse_json_from_output` hands to `json.loads`: objects, arrays, strings
without escape sequences, integers, booleans and null. -/
inductive MiniJson where
  | null
  | bool (b : Bool)
  | num (n : ℤ)
  | str (s : String)
  | arr (xs : List MiniJson)
  | obj (kvs : List (String × MiniJson))

/-- JSON whitespace. -/
def skipJsonWs (l : List Char) : List Char :=
  (takeRun (fun c => c = ' ' || c = '\t' || c = '\n' || c = '\r') l).2

/-- A JSON string body after the opening quote (no escape handling in this
subset). -/
def parseJsonString (input : List Char) : Option (String × List Char) :=
  match takeRun (fun c => c != '"') input with
  | (content, rest) =>
    match rest with
    | '"' :: rest2 => some (String.mk content, rest2)
    | _ => none

mutual

/-- One JSON value, fuel-bounded (`json.loads` on the modelled subset). -/
def parseJsonValue : ℕ → List Char → Option (MiniJson × List Char)
  | 0, _ => none
  | fuel + 1, input =>
    match skipJsonWs input with
    | [] => none
    | c :: cs =>
      if c = '\x7b' then
        match skipJsonWs cs with
        | '\x7d' :: rest => some (MiniJson.obj [], rest)
        | _ =>
          match parseJsonMembers fuel cs with
          | some (kvs, rest) => some (MiniJson.obj kvs, rest)
          | none => none
      else if c = '[' then
        match skipJsonWs cs with
        | ']' :: rest => some (MiniJson.arr [], rest)
        | _ =>
          match parseJsonItems fuel cs with
          | some (xs, rest) => some (MiniJson.arr xs, rest)
          | none => none
      else if c = '"' then
        match parseJsonString cs with
        | some (s, rest) => some (MiniJson.str s, rest)
        | none => none
      else if c = 't' then
        match matchLit "rue".data cs with
        | some rest => some (MiniJson.bool true, rest)
        | none => none
      else if c = 'f' then
        match matchLit "alse".data cs with
        | some rest => some (MiniJson.bool false, rest)
        | none => none
      else if c = 'n' then
        match matchLit "ull".data cs with
        | some rest => some (MiniJson.null, rest)
        | none => none
      else if c = '-' then
        match matchRun1 isDigitCh cs with
        | some (ds, rest) => some (MiniJson.num (-(natOfDigits (String.mk ds) : ℤ)), rest)
        | none => none
      else if isDigitCh c then
        match matchRun1 isDigitCh (c :: cs) with
        | some (ds, rest) => some (MiniJson.num (natOfDigits (String.mk ds) : ℤ), rest)
        | none => none
      else none

/-- Comma-separated `"key": value` members followed by a closing brace. -/
def parseJsonMembers : ℕ → List Char → Option (List (String × MiniJson) × List Char)
  | 0, _ => none
  | fuel + 1, input =>
    match skipJsonWs input with
    | '"' :: cs =>
      match parseJsonString cs with
      | none => none
      | some (k, rest) =>
        match skipJsonWs rest with
        | ':' :: rest2 =>
          match parseJsonValue fuel rest2 with
          | none => none
          | some (v, rest3) =>
            match skipJsonWs rest3 with
            | ',' :: rest4 =>
              match parseJsonMembers fuel rest4 with
              | some (kvs, rest5) => some ((k, v) :: kvs, rest5)
              | none => none
            | '\x7d' :: rest4 => some ([(k, v)], rest4)
            | _ => none
        | _ => none
    | _ => none

/-- Comma-separated array items followed by a closing bracket. -/
def parseJsonItems : ℕ → List Char → Option (List MiniJson × List Char)
  | 0, _ => none
  | fuel + 1, input =>
    match parseJsonValue fuel input with
    | none => none
    | some (v, rest) =>
      match skipJsonWs rest with
      | ',' :: rest2 =>
        match parseJsonItems fuel rest2 with
        | some (xs, rest3) => some (v :: xs, rest3)
        | none => none
      | ']' :: rest2 => some ([v], rest2)
      | _ => none

end

/-- `json.loads` on the modelled subset: a complete parse with only trailing
whitespace. -/
def jsonLoadsList (l : List Char) : Option MiniJson :=
  match parseJsonValue (l.length + 1) l with
  | some (v, rest) => if skipJsonWs rest = [] then some v else none
  | none => none

/-- The suffix starting at the first occurrence of `target`. -/
def suffixFrom (target : Char) : List Char → Option (List Char)
  | [] => none
  | c :: cs => if c = target then some (c :: cs) else suffixFrom target cs

/-- `output.find('{')`, falling back to `output.find('[')` (rust_cli_client.py
lines 94-100). -/
def findJsonStart (l : List Char) : Option (List Char) :=
  match suffixFrom '\x7b' l with
  | some r => some r
  | none => suffixFrom '[' l

/-- The progressive truncation loop of `_parse_json_from_output` (lines
106-110): try `json.loads` on prefixes from the longest down to length 1. -/
def tryPrefixes : ℕ → List Char → Option MiniJson
  | 0, _ => none
  | i + 1, l =>
    match jsonLoadsList (l.take (i + 1)) with
    | some v => some v
    | none => tryPrefixes i l

/-- `RustCLIClient._parse_json_from_output` (rust_cli_client.py lines 88-112):
`ValueError` when no brace or bracket occurs, otherwise the longest parsing
prefix from the first brace, else `ValueError`. -/
def parseJsonFromOutput (output : String) : Except PyError MiniJson :=
  match findJsonStart output.data with
  | none => Except.error (PyError.valueError "No JSON found in output")
  | some jsonStr =>
    match tryPrefixes jsonStr.length jsonStr with
    | some v => Except.ok v
    | none => Except.error (PyError.valueError "Could not parse JSON from output")

/-- `RustCLIClient.get_block_details` (rust_cli_client.py lines 233-255): run
the `blocks` subcommand and parse the embedded JSON; the enclosing
`try`/`except Exception` converts every failure — subprocess error, timeout or
parse error — into the return value `None`. -/
def get_block_details (c : CmdOutcome) : Option MiniJson :=
  match runCommand c with
  | Except.error _ => none
  | Except.ok (stdout, _) =>
    match parseJsonFromOutput stdout with
    | Except.error _ => none
    | Except.ok v => some v

/-- One parsed frame of `get_blocks_by_height`, restricted to the two fields
every caller consumes (`blockNumber` and `blockHash`). -/
structure BlockSummaryParse where
  blockNumber : ℤ
  blockHash : Option String
deriving Repr, DecidableEq

/-- Lowercase hex, the `[a-f0-9]+` class of the frame fields. -/
def isHexCh (c : Char) : Bool := isDigitCh c || (decide ('a' ≤ c) && decide (c ≤ 'f'))

/-- `re.search(r'Block #(\d+):', line)`. -/
def tryBlockNumAt (input : List Char) : Option (ℕ × List Char) := do
  let rest ← matchLit "Block #".data input
  let (ds, rest) ← matchRun1 isDigitCh rest
  let rest ← matchLit ":".data rest
  some (natOfDigits (String.mk ds), rest)

/-- `re.search(r'Hash:\s*([a-f0-9]+)', line)`. -/
def tryHashAt (input : List Char) : Option (String × List Char) := do
  let rest ← matchLit "Hash:".data input
  let (h, rest) ← matchRun1 isHexCh (skipSpaces rest)
  some (String.mk h, rest)

/-- `re.search`: the first position where the matcher fires. -/
def searchAt {α : Type} (tryAt : List Char → Option (α × List Char)) :
    ℕ → List Char → Option α
  | 0, _ => none
  | fuel + 1, l =>
    match tryAt l with
    | some (a, _) => some a
    | none =>
      match l with
      | [] => none
      | _ :: cs => searchAt tryAt fuel cs

/-- `re.search` over a line. -/
def lineSearch {α : Type} (tryAt : List Char → Option (α × List Char)) (s : String) :
    Option α :=
  searchAt tryAt (s.data.length + 1) s.data

/-- Python `str.strip()`. -/
def stripStr (s : String) : String :=
  String.mk (((s.data.dropWhile isSpaceCh).reverse.dropWhile isSpaceCh).reverse)

/-- Python `str.split('\n')`. -/
def splitNl : List Char → List (List Char)
  | [] => [[]]
  | c :: cs =>
    let rest := splitNl cs
    if c = '\n' then [] :: rest
    else (c :: rest.headD []) :: rest.tail

/-- `stdout.strip().split('\n')`. -/
def linesOf (stdout : String) : List String :=
  (splitNl (stripStr stdout).data).map String.mk

/-- One iteration of the `get_blocks_by_height` frame scan (rust_cli_client.py
lines 187-221) over the state (emitted frames, open frame): a `Block #N:`
delimiter flushes the open frame and opens a new one, a `Hash:` line fills the
hash of the open frame, and the remaining field lines do not affect the
modelled fields. -/
def gbhLine (st : List BlockSummaryParse × Option BlockSummaryParse) (line : String) :
    List BlockSummaryParse × Option BlockSummaryParse :=
  if containsSub line "Block #" then
    let flushed := match st.2 with | some b => st.1 ++ [b] | none => st.1
    match lineSearch tryBlockNumAt line with
    | some n => (flushed, some ⟨(n : ℤ), none⟩)
    | none => (flushed, none)
  else if containsSub line "Hash:" then
    match lineSearch tryHashAt line, st.2 with
    | some h, some b => (st.1, some { b with blockHash := some h })
    | _, _ => st
  else st

/-- `RustCLIClient.get_blocks_by_height` (rust_cli_client.py lines 162-231):
scan the frames out of the text output, not forgetting the last open frame;
the enclosing `try`/`except Exception` converts every failure into the return
value `[]`, and an output without frames parses to `[]` as well. -/
def get_blocks_by_height (c : CmdOutcome) : List BlockSummaryParse :=
  match runCommand c with
  | Except.error _ => []
  | Except.ok (stdout, _) =>
    let st := (linesOf stdout).foldl gbhLine ([], none)
    match st.2 with
    | some b => st.1 ++ [b]
    | none => st.1

/-- Claim C7 counterexample: a non-zero subprocess exit does raise
`RuntimeError` inside `_run_command`, and a timeout re-raises
`TimeoutError` — yet `get_block_details` returns the success value `None` and
`get_blocks_by_height` returns the success value `[]`; no `CLIError` or
`ParseError` reaches the caller (no such classes exist in the gateway). -/
theorem cli_errors_swallowed_counterexample :
    runCommand (CmdOutcome.completed 1 "" "boom") =
      Except.error (PyError.runtimeError "CLI command failed: boom") ∧
    get_block_details (CmdOutcome.completed 1 "" "boom") = none ∧
    runCommand CmdOutcome.timedOut = Except.error PyError.timeoutError ∧
    get_blocks_by_height CmdOutcome.timedOut = [] :=
  ⟨rfl, rfl, rfl, rfl⟩

/-- The scan state stays empty while no line carries the frame delimiter. -/
theorem gbhLine_no_frames (lines : List String)
    (h : ∀ line ∈ lines, containsSub line "Block #" = false) :
    lines.foldl gbhLine ([], none) = ([], none) := by
  induction lines with
  | nil => rfl
  | cons line rest ih =>
    have hline := h line (List.mem_cons_self _ _)
    have hstep : gbhLine ([], none) line = ([], none) := by
      by_cases hh : containsSub line "Hash:" = true
      · cases hsearch : lineSearch tryHashAt line with
        | none => simp [gbhLine, hline, hh, hsearch]
        | some hsh => simp [gbhLine, hline, hh, hsearch]
      · simp [gbhLine, hline, hh]
    rw [List.foldl_cons, hstep]
    exact ih (fun l hl => h l (List.mem_cons_of_mem _ hl))

/-- Claim C7 as amended: `_run_command` raises `RuntimeError` on a non-zero
exit and re-raises `TimeoutError` on timeout, and `_parse_json_from_output`
raises `ValueError` on an unparseable output — but every public gateway
operation catches all exceptions and converts the failure into a success
value: `get_block_details` returns `None` and `get_blocks_by_height` returns
`[]`, the same value it returns for an output without block frames.  Nothing
named `CLIError` or `ParseError` propagates to the caller. -/
theorem cli_gateway_failures_swallowed (rc : ℤ) (out err stdout : String)
    (c : CmdOutcome) (e : PyError) :
    (rc ≠ 0 → runCommand (CmdOutcome.completed rc out err) =
      Except.error (PyError.runtimeError ("CLI command failed: " ++ err))) ∧
    runCommand CmdOutcome.timedOut = Except.error PyError.timeoutError ∧
    (runCommand c = Except.error e →
      get_block_details c = none ∧ get_blocks_by_height c = []) ∧
    (parseJsonFromOutput stdout = Except.error e →
      get_block_details (CmdOutcome.completed 0 stdout err) = none) ∧
    ((∀ line ∈ linesOf stdout, containsSub line "Block #" = false) →
      get_blocks_by_height (CmdOutcome.completed 0 stdout err) = []) := by
  refine ⟨?_, rfl, ?_, ?_, ?_⟩
  · intro hrc
    simp [runCommand, hrc]
  · intro hb
    unfold get_block_details get_blocks_by_height
    rw [hb]
    exact ⟨rfl, rfl⟩
  · intro hp
    unfold get_block_details
    have hr : runCommand (CmdOutcome.completed 0 stdout err) = Except.ok (stdout, err) := by
      simp [runCommand]
    rw [hr]
    dsimp only
    rw [hp]
  · intro hl
    unfold get_blocks_by_height
    have hr : runCommand (CmdOutcome.completed 0 stdout err) = Except.ok (stdout, err) := by
      simp [runCommand]
    rw [hr]
    dsimp only
    rw [gbhLine_no_frames (linesOf stdout) hl]

/-- Witness for the amended C7: non-zero exit, timeout, a JSON operation on
unparseable output, and a frame operation on frame-less output all surface as
`None` or `[]`. -/
theorem cli_gateway_failures_swallowed_witness :
    runCommand (CmdOutcome.completed 2 "junk" "oops") =
      Except.error (PyError.runtimeError "CLI command failed: oops") ∧
    runCommand CmdOutcome.timedOut = Except.error PyError.timeoutError ∧
    (get_block_details CmdOutcome.timedOut = none ∧
      get_blocks_by_height CmdOutcome.timedOut = []) ∧
    get_block_details (CmdOutcome.completed 0 "no json here" "") = none ∧
    get_blocks_by_height (CmdOutcome.completed 0 "just a banner line" "") = [] := by
  have h := cli_gateway_failures_swallowed 2 "junk" "oops" "no json here"
    CmdOutcome.timedOut PyError.timeoutError
  have h2 := cli_gateway_failures_swallowed 2 "junk" "oops" "just a banner line"
    CmdOutcome.timedOut PyError.timeoutError
  refine ⟨h.1 (by norm_num), h.2.1, h.2.2.1 rfl, ?_, ?_⟩
  · exact (cli_gateway_failures_swallowed 2 "junk" "oops" "no json here"
      CmdOutcome.timedOut (PyError.valueError "No JSON found in output")).2.2.2.1 rfl
  · exact h2.2.2.2.2 (by decide)

end ASIExplorer
